import Mathlib

/-!
Verification of the smallstep/ocsp package (src/ocsp.go) against its
natural-language specification.

The development shallowly embeds the Go source.  Bytes are modelled as `Nat`
(encoders only emit values `< 256`), byte strings as `List Nat`, Go `*big.Int`
as `Int`, Go `time.Time` as `Int` (an abstract instant; the zero value is `0`),
and Go `nil` slices as `none` where the nil/non-nil distinction matters
(`Response.RawResponderName` / `Response.ResponderKeyHash`).

The generic DER layer mirrors the behaviour of Go's `encoding/asn1` package
for exactly the struct shapes the OCSP code uses, including its documented
leniencies (extra bytes at the end of a SEQUENCE are ignored because a
sequence can have OPTIONAL elements) and its strictness (minimal lengths,
minimal integers, the `explicit tag has no child` check).  X.509 certificate
parsing and signature checking are external collaborators of the package and
are modelled as an explicit record of functions (`Externals`), as is the
decoding of the `basicResponse` structure, whose time fields are outside the
byte-level model.  All recursion is structural (fuelled where Go iterates over
a shrinking byte stream) so that every definition evaluates inside the kernel.
-/

namespace Ocsp

/-! ## Byte strings -/

/-- Big-endian value of a byte string, with accumulator. -/
def fromBytesAux : Nat → List Nat → Nat
  | acc, [] => acc
  | acc, b :: t => fromBytesAux (acc * 256 + b) t

/-- Big-endian value of a byte string. -/
def fromBytes (bs : List Nat) : Nat := fromBytesAux 0 bs

/-- Fuelled minimal big-endian byte representation of a natural number.
The empty list represents `0`. -/
def natBytesF : Nat → Nat → List Nat
  | 0, _ => []
  | f + 1, n => if n = 0 then [] else natBytesF f (n / 256) ++ [n % 256]

/-- Minimal big-endian byte representation of a natural number
(`[]` for `0`, no leading zero byte otherwise). -/
def natBytes (n : Nat) : List Nat := natBytesF n n

/-! ## DER primitives shared by the encoder and the decoder

These mirror Go `encoding/asn1`: short/long definite lengths with the
minimality checks of `parseTagAndLength`, base-128 integers with the
non-minimal-encoding and 32-bit-overflow checks of `parseBase128Int`, and
two's-complement integers with the checks of `checkInteger`. -/

/-- Error kinds of Go `encoding/asn1` (`SyntaxError` / `StructuralError`).
The OCSP claims never depend on the message text of these errors. -/
inductive Asn1Err where
  | syntaxError (s : String)
  | structuralError (s : String)
  deriving DecidableEq, Repr

instance {ε α : Type} [DecidableEq ε] [DecidableEq α] : DecidableEq (Except ε α) := fun x y =>
  match x, y with
  | .error a, .error b =>
    if h : a = b then .isTrue (congrArg Except.error h)
    else .isFalse (fun hc => h (Except.error.inj hc))
  | .ok a, .ok b =>
    if h : a = b then .isTrue (congrArg Except.ok h)
    else .isFalse (fun hc => h (Except.ok.inj hc))
  | .error _, .ok _ => .isFalse (fun hc => Except.noConfusion hc)
  | .ok _, .error _ => .isFalse (fun hc => Except.noConfusion hc)

/-- DER definite-length encoding: short form below 128, otherwise
`0x80 + count` followed by the minimal big-endian bytes of the length. -/
def encLen (n : Nat) : List Nat :=
  if n < 128 then [n] else (128 + (natBytes n).length) :: natBytes n

/-- Long-form length accumulation loop, mirroring the checks in Go
`parseTagAndLength`: no byte may be read once the accumulator holds `2 ^ 23`
or more, a zero accumulator after a byte means superfluous leading zeros, and
a final value below 128 should have used the short form. -/
def parseLenLoop : Nat → Nat → List Nat → Except Asn1Err (Nat × List Nat)
  | 0, acc, s =>
    if acc < 128 then .error (.structuralError ("non-minimal length"))
    else .ok (acc, s)
  | k + 1, acc, s =>
    match s with
    | [] => .error (.syntaxError ("truncated tag or length"))
    | b :: t =>
      if 2 ^ 23 ≤ acc then .error (.structuralError ("length too large"))
      else
        let acc' := acc * 256 + b
        if acc' = 0 then .error (.structuralError ("superfluous leading zeros in length"))
        else parseLenLoop k acc' t

/-- Parse a DER definite length.  The long form with a zero byte count is the
(BER) indefinite form and is rejected. -/
def parseLen : List Nat → Except Asn1Err (Nat × List Nat)
  | [] => .error (.syntaxError ("truncated tag or length"))
  | b :: t =>
    if b < 128 then .ok (b, t)
    else
      let numBytes := b % 128
      if numBytes = 0 then .error (.syntaxError ("indefinite length found"))
      else parseLenLoop numBytes 0 t

/-- Base-128 integer parser for high tag numbers, mirroring Go
`parseBase128Int`: at most five bytes, no leading `0x80`, result capped at
`2 ^ 31 - 1`. -/
def parseBase128Aux : Nat → Nat → List Nat → Except Asn1Err (Nat × List Nat)
  | _, _, [] => .error (.syntaxError ("truncated base 128 integer"))
  | shifted, acc, b :: t =>
    if shifted = 5 then .error (.structuralError ("base 128 integer too large"))
    else if acc = 0 ∧ b = 128 then .error (.syntaxError ("integer is not minimally encoded"))
    else
      let acc' := acc * 128 + b % 128
      if b < 128 then
        if 2147483647 < acc' then .error (.structuralError ("base 128 integer too large"))
        else .ok (acc', t)
      else parseBase128Aux (shifted + 1) acc' t

/-- Identifier octet of a TLV: class (top two bits), constructed flag
(bit 5), and tag number (with the base-128 high-tag-number form). -/
structure TagInfo where
  Cls : Nat
  IsCompound : Bool
  Num : Nat
  deriving DecidableEq, Repr

/-- Parse the identifier octet(s) of a TLV, mirroring Go
`parseTagAndLength`: a low tag number is stored directly, `0x1f` switches to
the base-128 form which must itself encode a number of at least `0x1f`. -/
def parseTag : List Nat → Except Asn1Err (TagInfo × List Nat)
  | [] => .error (.syntaxError ("truncated tag or length"))
  | b :: t =>
    let cls := b / 64
    let comp := b / 32 % 2 == 1
    let n0 := b % 32
    if n0 = 31 then
      match parseBase128Aux 0 0 t with
      | .error e => .error e
      | .ok (n, t') =>
        if n < 31 then .error (.syntaxError ("non-minimal tag"))
        else .ok (⟨cls, comp, n⟩, t')
    else .ok (⟨cls, comp, n0⟩, t)

/-- One parsed TLV: its identifier info, content bytes, the full bytes of the
TLV (identifier, length and content) and the unconsumed remainder. -/
structure Tlv where
  info : TagInfo
  content : List Nat
  full : List Nat
  rest : List Nat
  deriving DecidableEq, Repr

/-- Parse one complete TLV from the head of a byte stream. -/
def parseTLV (s : List Nat) : Except Asn1Err Tlv :=
  match parseTag s with
  | .error e => .error e
  | .ok (ti, s1) =>
    match parseLen s1 with
    | .error e => .error e
    | .ok (n, s2) =>
      if s2.length < n then .error (.syntaxError ("data truncated"))
      else .ok ⟨ti, s2.take n, s.take (s.length - (s2.length - n)), s2.drop n⟩

/-- Parse a TLV and require a specific class, constructed flag and tag
number, as Go `parseField` does for a field with a known universal type. -/
def expectTlv (cls : Nat) (comp : Bool) (num : Nat) (s : List Nat) : Except Asn1Err Tlv :=
  match parseTLV s with
  | .error e => .error e
  | .ok t =>
    if t.info.Cls = cls ∧ t.info.IsCompound = comp ∧ t.info.Num = num then .ok t
    else .error (.structuralError ("tag mismatch"))

/-- Minimality test of Go `checkInteger`: an INTEGER content is nonempty and
never starts with a redundant `0x00` (before a clear sign bit) or `0xff`
(before a set sign bit). -/
def checkIntegerOk (bs : List Nat) : Bool :=
  match bs with
  | [] => false
  | [_] => true
  | b0 :: b1 :: _ =>
    if (b0 = 0 ∧ b1 < 128) ∨ (b0 = 255 ∧ 128 ≤ b1) then false else true

/-- Two's-complement value of an INTEGER content, as Go `parseBigInt`
computes it (a set top bit makes the value negative). -/
def derIntValue (bs : List Nat) : Int :=
  if 128 ≤ bs.headD 0 then (fromBytes bs : Int) - 2 ^ (8 * bs.length)
  else (fromBytes bs : Int)

/-- Parse an INTEGER content into an arbitrary-precision integer
(Go `checkInteger` followed by `parseBigInt`). -/
def parseBigIntContent (bs : List Nat) : Except Asn1Err Int :=
  if checkIntegerOk bs then .ok (derIntValue bs)
  else .error (.structuralError ("integer not minimally-encoded"))

/-- Parse an INTEGER content into a 64-bit integer (Go `parseInt64`): the
minimality checks of `checkInteger`, then at most eight content bytes. -/
def parseInt64Content (bs : List Nat) : Except Asn1Err Int :=
  if ¬ checkIntegerOk bs then .error (.structuralError ("integer not minimally-encoded"))
  else if 8 < bs.length then .error (.structuralError ("integer too large"))
  else .ok (derIntValue bs)

/-- Parse an INTEGER content into a 32-bit integer (Go `parseInt32`), used by
`encoding/asn1` for `asn1.Enumerated` fields. -/
def parseInt32Content (bs : List Nat) : Except Asn1Err Int :=
  match parseInt64Content bs with
  | .error e => .error e
  | .ok v =>
    if v < -(2 ^ 31) ∨ 2 ^ 31 - 1 < v then .error (.structuralError ("integer too large"))
    else .ok v

/-- Arc accumulation loop of Go `parseObjectIdentifier`: repeated
`parseBase128Int` calls until the content is exhausted, failing when the
content ends in the middle of an arc. -/
def parseOIDArcs : List Nat → Nat → Nat → List Nat → Except Asn1Err (List Nat)
  | [], shifted, _, arcs =>
    if shifted = 0 then .ok arcs.reverse
    else .error (.syntaxError ("truncated base 128 integer"))
  | b :: t, shifted, acc, arcs =>
    if shifted = 5 then .error (.structuralError ("base 128 integer too large"))
    else if acc = 0 ∧ b = 128 then .error (.syntaxError ("integer is not minimally encoded"))
    else
      let acc' := acc * 128 + b % 128
      if b < 128 then
        if 2147483647 < acc' then .error (.structuralError ("base 128 integer too large"))
        else parseOIDArcs t 0 0 (acc' :: arcs)
      else parseOIDArcs t (shifted + 1) acc' arcs

/-- Parse an OBJECT IDENTIFIER content into its arc list, splitting the first
base-128 value into the first two arcs exactly as Go `parseObjectIdentifier`
does. -/
def parseOIDContent (bs : List Nat) : Except Asn1Err (List Nat) :=
  if bs = [] then .error (.syntaxError ("zero length OBJECT IDENTIFIER"))
  else
    match parseOIDArcs bs 0 0 [] with
    | .error e => .error e
    | .ok arcs =>
      match arcs with
      | [] => .error (.syntaxError ("zero length OBJECT IDENTIFIER"))
      | v :: rest => .ok ((if v < 80 then [v / 40, v % 40] else [2, v - 80]) ++ rest)

/-- Parse a BOOLEAN content (Go `parseBool`): exactly one byte, `0x00` or
`0xff`. -/
def parseBoolContent (bs : List Nat) : Except Asn1Err Bool :=
  match bs with
  | [0] => .ok false
  | [255] => .ok true
  | _ => .error (.syntaxError ("invalid boolean"))

/-! ## DER encoding primitives (Go `encoding/asn1` marshalling) -/

/-- One TLV: a single identifier octet, the definite length, the content. -/
def encTLV (tag : Nat) (c : List Nat) : List Nat := tag :: (encLen c.length ++ c)

/-- Fuelled base-128 groups of a natural number, most significant first,
without continuation bits (`[0]` for `0`). -/
def base128GroupsF : Nat → Nat → List Nat
  | 0, _ => []
  | f + 1, n => if n = 0 then [] else base128GroupsF f (n / 128) ++ [n % 128]

/-- Base-128 encoding with continuation bits on all but the last group, as
Go `appendBase128Int` emits (a single `0` byte for the value `0`). -/
def encBase128 (n : Nat) : List Nat :=
  match base128GroupsF n n with
  | [] => [0]
  | g :: gs => ((g :: gs).dropLast.map (· + 128)) ++ [(g :: gs).getLastD 0]

/-- Content bytes of an OBJECT IDENTIFIER: the first two arcs fused into
`40 * a + b`, every arc in base 128. -/
def encOIDContent (oid : List Nat) : List Nat :=
  match oid with
  | a :: b :: rest => encBase128 (40 * a + b) ++ (rest.map encBase128).foldr (· ++ ·) []
  | _ => []

/-- Minimal two's-complement content of an INTEGER, as Go `makeBigInt`
emits: `[0]` for zero, the minimal unsigned bytes with a possible `0x00` sign
pad for positives, and the complemented bytes of `-n - 1` with a possible
`0xff` sign pad for negatives. -/
def encInt (i : Int) : List Nat :=
  if i = 0 then [0]
  else if 0 < i then
    let bs := natBytes i.toNat
    if 128 ≤ bs.headD 0 then 0 :: bs else bs
  else
    let cs := (natBytes (-i - 1).toNat).map (fun b => 255 - b)
    if cs = [] ∨ cs.headD 0 < 128 then 255 :: cs else cs

/-! ## ASN.1 raw values and OCSP object identifiers -/

/-- Go `asn1.RawValue`.  The Go field `Class` is called `Cls` here. -/
structure RawValue where
  Cls : Nat := 0
  Tag : Nat := 0
  IsCompound : Bool := false
  Bytes : List Nat := []
  FullBytes : List Nat := []
  deriving DecidableEq, Repr

/-- Encoding of a `RawValue` (Go `makeField`): the stored full bytes when
present, otherwise a TLV rebuilt from class, tag and content. -/
def encRawValue (rv : RawValue) : List Nat :=
  if rv.FullBytes ≠ [] then rv.FullBytes
  else
    let base := rv.Cls * 64 + (if rv.IsCompound then 32 else 0)
    if rv.Tag < 31 then encTLV (base + rv.Tag) rv.Bytes
    else (base + 31) :: encBase128 rv.Tag ++ encLen rv.Bytes.length ++ rv.Bytes

/-- Capture a parsed TLV as a `RawValue`, as Go does for `RawValue` fields. -/
def rawValueOfTlv (t : Tlv) : RawValue :=
  { Cls := t.info.Cls, Tag := t.info.Num, IsCompound := t.info.IsCompound,
    Bytes := t.content, FullBytes := t.full }

/-- Go `pkix.AlgorithmIdentifier`: an OID plus optional raw parameters. -/
structure AlgorithmIdentifier where
  Algorithm : List Nat := []
  Parameters : RawValue := {}
  deriving DecidableEq, Repr

/-- Encoding of a `pkix.AlgorithmIdentifier`; the optional parameters are
omitted when they are the zero `RawValue`, as Go omits zero optionals. -/
def encAlgorithmIdentifier (a : AlgorithmIdentifier) : List Nat :=
  encTLV 48 (encTLV 6 (encOIDContent a.Algorithm) ++
    (if a.Parameters = ({} : RawValue) then [] else encRawValue a.Parameters))

/-- OID of the basic OCSP response type (`id-pkix-ocsp-basic`). -/
def idPKIXOCSPBasic : List Nat := [1, 3, 6, 1, 5, 5, 7, 48, 1, 1]

def oidSignatureMD2WithRSA : List Nat := [1, 2, 840, 113549, 1, 1, 2]
def oidSignatureMD5WithRSA : List Nat := [1, 2, 840, 113549, 1, 1, 4]
def oidSignatureSHA1WithRSA : List Nat := [1, 2, 840, 113549, 1, 1, 5]
def oidSignatureSHA256WithRSA : List Nat := [1, 2, 840, 113549, 1, 1, 11]
def oidSignatureSHA384WithRSA : List Nat := [1, 2, 840, 113549, 1, 1, 12]
def oidSignatureSHA512WithRSA : List Nat := [1, 2, 840, 113549, 1, 1, 13]
def oidSignatureRSAPSS : List Nat := [1, 2, 840, 113549, 1, 1, 10]
def oidSignatureDSAWithSHA1 : List Nat := [1, 2, 840, 10040, 4, 3]
def oidSignatureDSAWithSHA256 : List Nat := [2, 16, 840, 1, 101, 3, 4, 3, 2]
def oidSignatureECDSAWithSHA1 : List Nat := [1, 2, 840, 10045, 4, 1]
def oidSignatureECDSAWithSHA256 : List Nat := [1, 2, 840, 10045, 4, 3, 2]
def oidSignatureECDSAWithSHA384 : List Nat := [1, 2, 840, 10045, 4, 3, 3]
def oidSignatureECDSAWithSHA512 : List Nat := [1, 2, 840, 10045, 4, 3, 4]

def oidSHA1 : List Nat := [1, 3, 14, 3, 2, 26]
def oidSHA256 : List Nat := [2, 16, 840, 1, 101, 3, 4, 2, 1]
def oidSHA384 : List Nat := [2, 16, 840, 1, 101, 3, 4, 2, 2]
def oidSHA512 : List Nat := [2, 16, 840, 1, 101, 3, 4, 2, 3]

def oidMGF1 : List Nat := [1, 2, 840, 113549, 1, 1, 8]

/-- Values of Go `crypto.Hash` used by the package (`crypto.SHA1` is 3,
`SHA256` is 5, `SHA384` is 6, `SHA512` is 7; the zero value is "no hash"). -/
def cryptoSHA1 : Nat := 3
def cryptoSHA256 : Nat := 5
def cryptoSHA384 : Nat := 6
def cryptoSHA512 : Nat := 7
def cryptoMD5 : Nat := 2
def cryptoHash0 : Nat := 0

/-- The fixed hash-to-OID table of the package (`hashOIDs`).  The Go map is
iterated in arbitrary order; since the four OIDs and the four hash kinds are
pairwise distinct, every lookup the package performs is order-independent,
and an ordered association list is a faithful model. -/
def hashOIDs : List (Nat × List Nat) :=
  [(cryptoSHA1, oidSHA1), (cryptoSHA256, oidSHA256),
   (cryptoSHA384, oidSHA384), (cryptoSHA512, oidSHA512)]

/-- Values of Go `x509.SignatureAlgorithm`. -/
def UnknownSignatureAlgorithm : Nat := 0
def MD2WithRSA : Nat := 1
def MD5WithRSA : Nat := 2
def SHA1WithRSA : Nat := 3
def SHA256WithRSA : Nat := 4
def SHA384WithRSA : Nat := 5
def SHA512WithRSA : Nat := 6
def DSAWithSHA1 : Nat := 7
def DSAWithSHA256 : Nat := 8
def ECDSAWithSHA1 : Nat := 9
def ECDSAWithSHA256 : Nat := 10
def ECDSAWithSHA384 : Nat := 11
def ECDSAWithSHA512 : Nat := 12
def SHA256WithRSAPSS : Nat := 13
def SHA384WithRSAPSS : Nat := 14
def SHA512WithRSAPSS : Nat := 15

/-- Values of Go `x509.PublicKeyAlgorithm`. -/
def pubKeyRSA : Nat := 1
def pubKeyDSA : Nat := 2
def pubKeyECDSA : Nat := 3

/-- Go `asn1.NullBytes`. -/
def NullBytes : List Nat := [5, 0]

/-- Go `asn1.NullRawValue`. -/
def NullRawValue : RawValue := { Tag := 5 }

/-! ## OCSP request data model (src/ocsp.go lines 80-102, 401-408) -/

/-- Go `pkix.Extension`. -/
structure Extension where
  Id : List Nat := []
  Critical : Bool := false
  Value : List Nat := []
  deriving DecidableEq, Repr

/-- Go `pkix.AttributeTypeAndValue`; the Go field `Type` is called `Typ`. -/
structure AttributeTypeAndValue where
  Typ : List Nat := []
  Value : RawValue := {}
  deriving DecidableEq, Repr

/-- The `certID` structure of the package. -/
structure certID where
  HashAlgorithm : AlgorithmIdentifier := {}
  NameHash : List Nat := []
  IssuerKeyHash : List Nat := []
  SerialNumber : Int := 0
  deriving DecidableEq, Repr

/-- The `request` structure of the package. -/
structure request where
  Cert : certID := {}
  deriving DecidableEq, Repr

/-- The `tbsRequest` structure of the package.  `RequestorName` is a
`pkix.RDNSequence` (a sequence of SETs of attribute-value pairs). -/
structure tbsRequest where
  Version : Int := 0
  RequestorName : List (List AttributeTypeAndValue) := []
  RequestList : List request := []
  RequestExtensions : List Extension := []
  deriving DecidableEq, Repr

/-- The `ocspRequest` structure of the package.  As in the Go declaration,
the `optionalSignature` component of RFC 6960 `OCSPRequest` has no field
here, so on the wire it falls under the trailing bytes that `encoding/asn1`
ignores at the end of a SEQUENCE. -/
structure ocspRequest where
  TBSRequest : tbsRequest := {}
  deriving DecidableEq, Repr

/-- The exported `Request` structure of the package. -/
structure Request where
  HashAlgorithm : Nat := 0
  IssuerNameHash : List Nat := []
  IssuerKeyHash : List Nat := []
  SerialNumber : Int := 0
  Extensions : List Extension := []
  deriving DecidableEq, Repr

/-- Hash-kind to OID lookup (`getOIDFromHashAlgorithm`); `none` models the
Go `nil` return. -/
def getOIDFromHashAlgorithm (target : Nat) : Option (List Nat) :=
  match hashOIDs.find? (fun p => p.1 == target) with
  | some p => some p.2
  | none => none

/-- OID to hash-kind lookup (`getHashAlgorithmFromOID`); the zero hash
models the Go `crypto.Hash(0)` return. -/
def getHashAlgorithmFromOID (target : List Nat) : Nat :=
  match hashOIDs.find? (fun p => p.2 == target) with
  | some p => p.1
  | none => cryptoHash0

/-! ## Request encoding (`asn1.Marshal` over the request shapes)

Optional fields equal to their (zero or declared) default are omitted, as Go
`makeField` omits them. -/

def encExtension (e : Extension) : List Nat :=
  encTLV 48 (encTLV 6 (encOIDContent e.Id) ++
    (if e.Critical then encTLV 1 [255] else []) ++ encTLV 4 e.Value)

def encATV (a : AttributeTypeAndValue) : List Nat :=
  encTLV 48 (encTLV 6 (encOIDContent a.Typ) ++ encRawValue a.Value)

def encRDNSet (st : List AttributeTypeAndValue) : List Nat :=
  encTLV 49 ((st.map encATV).foldr (· ++ ·) [])

def encRDNSequence (rdn : List (List AttributeTypeAndValue)) : List Nat :=
  encTLV 48 ((rdn.map encRDNSet).foldr (· ++ ·) [])

def encCertID (c : certID) : List Nat :=
  encTLV 48 (encAlgorithmIdentifier c.HashAlgorithm ++
    encTLV 4 c.NameHash ++ encTLV 4 c.IssuerKeyHash ++ encTLV 2 (encInt c.SerialNumber))

def encRequest (r : request) : List Nat := encTLV 48 (encCertID r.Cert)

def encTBSRequest (t : tbsRequest) : List Nat :=
  encTLV 48 ((if t.Version = 0 then [] else encTLV 160 (encTLV 2 (encInt t.Version))) ++
    (if t.RequestorName = [] then [] else encTLV 161 (encRDNSequence t.RequestorName)) ++
    encTLV 48 ((t.RequestList.map encRequest).foldr (· ++ ·) []) ++
    (if t.RequestExtensions = [] then []
     else encTLV 162 (encTLV 48 ((t.RequestExtensions.map encExtension).foldr (· ++ ·) []))))

def encOCSPRequest (o : ocspRequest) : List Nat := encTLV 48 (encTBSRequest o.TBSRequest)

/-- `Request.Marshal` (src/ocsp.go lines 411-434): resolve the hash OID and
marshal a version-0, single-entry, unsigned `ocspRequest` whose `certID`
carries the request's hashes and serial with NULL hash parameters.  The
`Extensions` field of the request is not consulted. -/
def Request.Marshal (req : Request) : Except String (List Nat) :=
  match getOIDFromHashAlgorithm req.HashAlgorithm with
  | none => .error ("unknown hash algorithm")
  | some hashAlg =>
    .ok (encOCSPRequest
      { TBSRequest :=
        { Version := 0,
          RequestList :=
            [ { Cert :=
                { HashAlgorithm := { Algorithm := hashAlg, Parameters := { Tag := 5 } },
                  NameHash := req.IssuerNameHash,
                  IssuerKeyHash := req.IssuerKeyHash,
                  SerialNumber := req.SerialNumber } } ] } })

/-! ## Request decoding (`asn1.Unmarshal` over the request shapes)

Struct parsers follow Go `parseField`: a field list is parsed from the front
of a SEQUENCE content and extra bytes at the end of the SEQUENCE are ignored.
Explicit optional fields follow Go exactly: absence at the end of the content
yields the default; a wrapper whose tag does not match, or a matching wrapper
whose inner tag does not match the expected universal type, yields the
default without consuming; a wrapper with nothing after its header is the
`explicit tag has no child` error; content errors propagate. -/

/-- Parse a universal OBJECT IDENTIFIER TLV. -/
def parseOIDTLV (s : List Nat) : Except Asn1Err (List Nat × List Nat) :=
  match expectTlv 0 false 6 s with
  | .error e => .error e
  | .ok t =>
    match parseOIDContent t.content with
    | .error e => .error e
    | .ok oid => .ok (oid, t.rest)

/-- Parse a universal OCTET STRING TLV into a byte string. -/
def parseOctetStringTLV (s : List Nat) : Except Asn1Err (List Nat × List Nat) :=
  match expectTlv 0 false 4 s with
  | .error e => .error e
  | .ok t => .ok (t.content, t.rest)

/-- Parse a universal INTEGER TLV into an arbitrary-precision integer. -/
def parseBigIntTLV (s : List Nat) : Except Asn1Err (Int × List Nat) :=
  match expectTlv 0 false 2 s with
  | .error e => .error e
  | .ok t =>
    match parseBigIntContent t.content with
    | .error e => .error e
    | .ok v => .ok (v, t.rest)

/-- Parse the content of a `pkix.AlgorithmIdentifier` SEQUENCE: a mandatory
OID, then an optional raw parameters value, then ignored extra bytes. -/
def parseAlgIdContent (c : List Nat) : Except Asn1Err AlgorithmIdentifier :=
  match parseOIDTLV c with
  | .error e => .error e
  | .ok (oid, r1) =>
    match r1 with
    | [] => .ok { Algorithm := oid }
    | _ :: _ =>
      match parseTLV r1 with
      | .error e => .error e
      | .ok p => .ok { Algorithm := oid, Parameters := rawValueOfTlv p }

/-- Parse a `pkix.AlgorithmIdentifier` TLV from the head of a stream. -/
def parseAlgorithmIdentifier (s : List Nat) : Except Asn1Err (AlgorithmIdentifier × List Nat) :=
  match expectTlv 0 true 16 s with
  | .error e => .error e
  | .ok t =>
    match parseAlgIdContent t.content with
    | .error e => .error e
    | .ok a => .ok (a, t.rest)

/-- Parse the `Version` field of `tbsRequest`
(`asn1:"explicit,tag:0,default:0,optional"`, a Go `int`). -/
def parseVersionField (s : List Nat) : Except Asn1Err (Int × List Nat) :=
  match s with
  | [] => .ok (0, [])
  | _ :: _ =>
    match parseTag s with
    | .error e => .error e
    | .ok (ti, s1) =>
      match parseLen s1 with
      | .error e => .error e
      | .ok (n, s2) =>
        if s2 = [] then .error (.structuralError ("explicit tag has no child"))
        else if ti.Cls = 2 ∧ ti.Num = 0 ∧ (n = 0 ∨ ti.IsCompound = true) then
          if n = 0 then .error (.structuralError ("zero length explicit tag was not a flag"))
          else
            match parseTLV s2 with
            | .error e => .error e
            | .ok t2 =>
              if t2.info.Cls = 0 ∧ t2.info.IsCompound = false ∧ t2.info.Num = 2 then
                match parseInt64Content t2.content with
                | .error e => .error e
                | .ok v => .ok (v, t2.rest)
              else .ok (0, s)
        else .ok (0, s)

/-- Parse one `pkix.AttributeTypeAndValue` SEQUENCE.  The `any`-typed value
is captured as a raw TLV; the per-string-type content validation Go performs
for some universal tags is not modelled (no OCSP claim depends on attribute
value contents). -/
def parseATVStruct (s : List Nat) : Except Asn1Err (AttributeTypeAndValue × List Nat) :=
  match expectTlv 0 true 16 s with
  | .error e => .error e
  | .ok t =>
    match parseOIDTLV t.content with
    | .error e => .error e
    | .ok (oid, r1) =>
      match r1 with
      | [] => .error (.syntaxError ("sequence truncated"))
      | _ :: _ =>
        match parseTLV r1 with
        | .error e => .error e
        | .ok t2 => .ok ({ Typ := oid, Value := rawValueOfTlv t2 }, t.rest)

/-- Fuelled SET OF `AttributeTypeAndValue` element loop. -/
def parseATVSetLoop : Nat → List Nat → Except Asn1Err (List AttributeTypeAndValue)
  | _, [] => .ok []
  | 0, _ :: _ => .error (.syntaxError ("truncated sequence"))
  | f + 1, b :: t =>
    match parseATVStruct (b :: t) with
    | .error e => .error e
    | .ok (a, rest) =>
      match parseATVSetLoop f rest with
      | .error e => .error e
      | .ok as_ => .ok (a :: as_)

/-- Parse one `RelativeDistinguishedNameSET` (a SET, tag 17). -/
def parseRDNSetStruct (s : List Nat) : Except Asn1Err (List AttributeTypeAndValue × List Nat) :=
  match expectTlv 0 true 17 s with
  | .error e => .error e
  | .ok t =>
    match parseATVSetLoop t.content.length t.content with
    | .error e => .error e
    | .ok as_ => .ok (as_, t.rest)

/-- Fuelled SEQUENCE OF `RelativeDistinguishedNameSET` element loop. -/
def parseRDNLoop : Nat → List Nat → Except Asn1Err (List (List AttributeTypeAndValue))
  | _, [] => .ok []
  | 0, _ :: _ => .error (.syntaxError ("truncated sequence"))
  | f + 1, b :: t =>
    match parseRDNSetStruct (b :: t) with
    | .error e => .error e
    | .ok (st, rest) =>
      match parseRDNLoop f rest with
      | .error e => .error e
      | .ok sts => .ok (st :: sts)

/-- Parse a `pkix.RDNSequence` TLV from the head of a stream
(`asn1.Unmarshal` into an `RDNSequence`). -/
def parseRDNSequence (s : List Nat) : Except Asn1Err (List (List AttributeTypeAndValue) × List Nat) :=
  match expectTlv 0 true 16 s with
  | .error e => .error e
  | .ok t =>
    match parseRDNLoop t.content.length t.content with
    | .error e => .error e
    | .ok rdn => .ok (rdn, t.rest)

/-- Parse the `RequestorName` field of `tbsRequest`
(`asn1:"explicit,tag:1,optional"`, a `pkix.RDNSequence`). -/
def parseRequestorNameField (s : List Nat) :
    Except Asn1Err (List (List AttributeTypeAndValue) × List Nat) :=
  match s with
  | [] => .ok ([], [])
  | _ :: _ =>
    match parseTag s with
    | .error e => .error e
    | .ok (ti, s1) =>
      match parseLen s1 with
      | .error e => .error e
      | .ok (n, s2) =>
        if s2 = [] then .error (.structuralError ("explicit tag has no child"))
        else if ti.Cls = 2 ∧ ti.Num = 1 ∧ (n = 0 ∨ ti.IsCompound = true) then
          if n = 0 then .error (.structuralError ("zero length explicit tag was not a flag"))
          else
            match parseTLV s2 with
            | .error e => .error e
            | .ok t2 =>
              if t2.info.Cls = 0 ∧ t2.info.IsCompound = true ∧ t2.info.Num = 16 then
                match parseRDNLoop t2.content.length t2.content with
                | .error e => .error e
                | .ok rdn => .ok (rdn, t2.rest)
              else .ok ([], s)
        else .ok ([], s)

/-- Parse the optional `Critical` BOOLEAN of a `pkix.Extension`. -/
def parseOptBoolField (s : List Nat) : Except Asn1Err (Bool × List Nat) :=
  match s with
  | [] => .ok (false, [])
  | _ :: _ =>
    match parseTLV s with
    | .error e => .error e
    | .ok t =>
      if t.info.Cls = 0 ∧ t.info.IsCompound = false ∧ t.info.Num = 1 then
        match parseBoolContent t.content with
        | .error e => .error e
        | .ok b => .ok (b, t.rest)
      else .ok (false, s)

/-- Parse one `pkix.Extension` SEQUENCE. -/
def parseExtensionStruct (s : List Nat) : Except Asn1Err (Extension × List Nat) :=
  match expectTlv 0 true 16 s with
  | .error e => .error e
  | .ok t =>
    match parseOIDTLV t.content with
    | .error e => .error e
    | .ok (oid, r1) =>
      match parseOptBoolField r1 with
      | .error e => .error e
      | .ok (crit, r2) =>
        match parseOctetStringTLV r2 with
        | .error e => .error e
        | .ok (val, _) => .ok ({ Id := oid, Critical := crit, Value := val }, t.rest)

/-- Fuelled SEQUENCE OF `pkix.Extension` element loop. -/
def parseExtListLoop : Nat → List Nat → Except Asn1Err (List Extension)
  | _, [] => .ok []
  | 0, _ :: _ => .error (.syntaxError ("truncated sequence"))
  | f + 1, b :: t =>
    match parseExtensionStruct (b :: t) with
    | .error e => .error e
    | .ok (x, rest) =>
      match parseExtListLoop f rest with
      | .error e => .error e
      | .ok xs => .ok (x :: xs)

/-- Parse the `RequestExtensions` field of `tbsRequest`
(`asn1:"explicit,tag:2,optional"`, a `[]pkix.Extension`). -/
def parseRequestExtensionsField (s : List Nat) : Except Asn1Err (List Extension × List Nat) :=
  match s with
  | [] => .ok ([], [])
  | _ :: _ =>
    match parseTag s with
    | .error e => .error e
    | .ok (ti, s1) =>
      match parseLen s1 with
      | .error e => .error e
      | .ok (n, s2) =>
        if s2 = [] then .error (.structuralError ("explicit tag has no child"))
        else if ti.Cls = 2 ∧ ti.Num = 2 ∧ (n = 0 ∨ ti.IsCompound = true) then
          if n = 0 then .error (.structuralError ("zero length explicit tag was not a flag"))
          else
            match parseTLV s2 with
            | .error e => .error e
            | .ok t2 =>
              if t2.info.Cls = 0 ∧ t2.info.IsCompound = true ∧ t2.info.Num = 16 then
                match parseExtListLoop t2.content.length t2.content with
                | .error e => .error e
                | .ok xs => .ok (xs, t2.rest)
              else .ok ([], s)
        else .ok ([], s)

/-- Parse one `certID` SEQUENCE: algorithm identifier, two octet strings, a
big integer; extra bytes at the end of the SEQUENCE are ignored. -/
def parseCertIDStruct (s : List Nat) : Except Asn1Err (certID × List Nat) :=
  match expectTlv 0 true 16 s with
  | .error e => .error e
  | .ok t =>
    match parseAlgorithmIdentifier t.content with
    | .error e => .error e
    | .ok (alg, r1) =>
      match parseOctetStringTLV r1 with
      | .error e => .error e
      | .ok (nh, r2) =>
        match parseOctetStringTLV r2 with
        | .error e => .error e
        | .ok (kh, r3) =>
          match parseBigIntTLV r3 with
          | .error e => .error e
          | .ok (sn, _) =>
            .ok ({ HashAlgorithm := alg, NameHash := nh, IssuerKeyHash := kh,
                   SerialNumber := sn }, t.rest)

/-- Parse one `request` SEQUENCE (extra bytes after the `certID`, such as
`singleRequestExtensions`, are ignored as in Go). -/
def parseRequestStruct (s : List Nat) : Except Asn1Err (request × List Nat) :=
  match expectTlv 0 true 16 s with
  | .error e => .error e
  | .ok t =>
    match parseCertIDStruct t.content with
    | .error e => .error e
    | .ok (cid, _) => .ok ({ Cert := cid }, t.rest)

/-- Fuelled SEQUENCE OF `request` element loop. -/
def parseRequestListLoop : Nat → List Nat → Except Asn1Err (List request)
  | _, [] => .ok []
  | 0, _ :: _ => .error (.syntaxError ("truncated sequence"))
  | f + 1, b :: t =>
    match parseRequestStruct (b :: t) with
    | .error e => .error e
    | .ok (r, rest) =>
      match parseRequestListLoop f rest with
      | .error e => .error e
      | .ok rs => .ok (r :: rs)

/-- Parse a `tbsRequest` SEQUENCE from the head of a stream. -/
def parseTBSRequestStruct (s : List Nat) : Except Asn1Err (tbsRequest × List Nat) :=
  match expectTlv 0 true 16 s with
  | .error e => .error e
  | .ok t =>
    match parseVersionField t.content with
    | .error e => .error e
    | .ok (v, c1) =>
      match parseRequestorNameField c1 with
      | .error e => .error e
      | .ok (rn, c2) =>
        match expectTlv 0 true 16 c2 with
        | .error e => .error e
        | .ok t2 =>
          match parseRequestListLoop t2.content.length t2.content with
          | .error e => .error e
          | .ok reqs =>
            match parseRequestExtensionsField t2.rest with
            | .error e => .error e
            | .ok (exts, _) =>
              .ok ({ Version := v, RequestorName := rn, RequestList := reqs,
                     RequestExtensions := exts }, t.rest)

/-- `asn1.Unmarshal` of a DER byte string into an `ocspRequest`: the outer
SEQUENCE holds the `tbsRequest`; extra bytes inside the outer SEQUENCE (for
example an `optionalSignature`) are ignored; the returned remainder is the
data following the outer TLV. -/
def unmarshalOCSPRequest (der : List Nat) : Except Asn1Err (ocspRequest × List Nat) :=
  match expectTlv 0 true 16 der with
  | .error e => .error e
  | .ok t =>
    match parseTBSRequestStruct t.content with
    | .error e => .error e
    | .ok (tbs, _) => .ok ({ TBSRequest := tbs }, t.rest)

/-! ## OCSP error kinds -/

/-- The error kinds `ParseRequest` / `ParseResponseForCert` can surface:
errors from `encoding/asn1`, the package's own `ParseError` and
`ResponseError` types, and errors passed through from `x509`.  The kinds are
distinct constructors, modelling the distinct Go error types. -/
inductive OcspError where
  | asn1Error (e : Asn1Err)
  | parseError (s : String)
  | responseError (status : Int)
  | x509Error (s : String)
  deriving DecidableEq, Repr

/-- `ParseRequest` (src/ocsp.go lines 526-553). -/
def ParseRequest (der : List Nat) : Except OcspError Request :=
  match unmarshalOCSPRequest der with
  | .error e => .error (.asn1Error e)
  | .ok (req, rest) =>
    if rest ≠ [] then .error (.parseError ("trailing data in OCSP request"))
    else
      match req.TBSRequest.RequestList with
      | [] => .error (.parseError ("OCSP request contains no request body"))
      | innerRequest :: _ =>
        let hashFunc := getHashAlgorithmFromOID innerRequest.Cert.HashAlgorithm.Algorithm
        if hashFunc = cryptoHash0 then
          .error (.parseError ("OCSP request uses unknown hash function"))
        else
          .ok { HashAlgorithm := hashFunc,
                IssuerNameHash := innerRequest.Cert.NameHash,
                IssuerKeyHash := innerRequest.Cert.IssuerKeyHash,
                SerialNumber := innerRequest.Cert.SerialNumber,
                Extensions := req.TBSRequest.RequestExtensions }

/-! ## Signature algorithm registry and resolver (src/ocsp.go lines 179-359) -/

/-- One row of the `signatureAlgorithmDetails` table. -/
structure SigAlgDetail where
  algo : Nat
  oid : List Nat
  params : RawValue
  pubKeyAlgo : Nat
  hash : Nat
  isRSAPSS : Bool
  deriving DecidableEq, Repr

def emptyRawValue : RawValue := {}

/-- DER encoded RSA PSS parameters for the SHA256, SHA384 and SHA512 hashes,
byte for byte as in the source (src/ocsp.go lines 213-217). -/
def pssParametersSHA256 : RawValue :=
  { FullBytes := [48, 52, 160, 15, 48, 13, 6, 9, 96, 134, 72, 1, 101, 3, 4, 2, 1, 5, 0,
      161, 28, 48, 26, 6, 9, 42, 134, 72, 134, 247, 13, 1, 1, 8, 48, 13, 6, 9, 96, 134,
      72, 1, 101, 3, 4, 2, 1, 5, 0, 162, 3, 2, 1, 32] }

def pssParametersSHA384 : RawValue :=
  { FullBytes := [48, 52, 160, 15, 48, 13, 6, 9, 96, 134, 72, 1, 101, 3, 4, 2, 2, 5, 0,
      161, 28, 48, 26, 6, 9, 42, 134, 72, 134, 247, 13, 1, 1, 8, 48, 13, 6, 9, 96, 134,
      72, 1, 101, 3, 4, 2, 2, 5, 0, 162, 3, 2, 1, 48] }

def pssParametersSHA512 : RawValue :=
  { FullBytes := [48, 52, 160, 15, 48, 13, 6, 9, 96, 134, 72, 1, 101, 3, 4, 2, 3, 5, 0,
      161, 28, 48, 26, 6, 9, 42, 134, 72, 134, 247, 13, 1, 1, 8, 48, 13, 6, 9, 96, 134,
      72, 1, 101, 3, 4, 2, 3, 5, 0, 162, 3, 2, 1, 64] }

/-- The `signatureAlgorithmDetails` table (src/ocsp.go lines 179-202). -/
def signatureAlgorithmDetails : List SigAlgDetail :=
  [ ⟨MD2WithRSA, oidSignatureMD2WithRSA, NullRawValue, pubKeyRSA, cryptoHash0, false⟩,
    ⟨MD5WithRSA, oidSignatureMD5WithRSA, NullRawValue, pubKeyRSA, cryptoMD5, false⟩,
    ⟨SHA1WithRSA, oidSignatureSHA1WithRSA, NullRawValue, pubKeyRSA, cryptoSHA1, false⟩,
    ⟨SHA256WithRSA, oidSignatureSHA256WithRSA, NullRawValue, pubKeyRSA, cryptoSHA256, false⟩,
    ⟨SHA384WithRSA, oidSignatureSHA384WithRSA, NullRawValue, pubKeyRSA, cryptoSHA384, false⟩,
    ⟨SHA512WithRSA, oidSignatureSHA512WithRSA, NullRawValue, pubKeyRSA, cryptoSHA512, false⟩,
    ⟨SHA256WithRSAPSS, oidSignatureRSAPSS, pssParametersSHA256, pubKeyRSA, cryptoSHA256, true⟩,
    ⟨SHA384WithRSAPSS, oidSignatureRSAPSS, pssParametersSHA384, pubKeyRSA, cryptoSHA384, true⟩,
    ⟨SHA512WithRSAPSS, oidSignatureRSAPSS, pssParametersSHA512, pubKeyRSA, cryptoSHA512, true⟩,
    ⟨DSAWithSHA1, oidSignatureDSAWithSHA1, emptyRawValue, pubKeyDSA, cryptoSHA1, false⟩,
    ⟨DSAWithSHA256, oidSignatureDSAWithSHA256, emptyRawValue, pubKeyDSA, cryptoSHA256, false⟩,
    ⟨ECDSAWithSHA1, oidSignatureECDSAWithSHA1, emptyRawValue, pubKeyECDSA, cryptoSHA1, false⟩,
    ⟨ECDSAWithSHA256, oidSignatureECDSAWithSHA256, emptyRawValue, pubKeyECDSA, cryptoSHA256, false⟩,
    ⟨ECDSAWithSHA384, oidSignatureECDSAWithSHA384, emptyRawValue, pubKeyECDSA, cryptoSHA384, false⟩,
    ⟨ECDSAWithSHA512, oidSignatureECDSAWithSHA512, emptyRawValue, pubKeyECDSA, cryptoSHA512, false⟩ ]

/-- The `pssParameters` structure (src/ocsp.go lines 221-229). -/
structure pssParameters where
  Hash : AlgorithmIdentifier := {}
  MGF : AlgorithmIdentifier := {}
  SaltLength : Int := 0
  TrailerField : Int := 1
  deriving DecidableEq, Repr

/-- Parse a mandatory `asn1:"explicit,tag:<n>"` field holding a
`pkix.AlgorithmIdentifier`.  Being non-optional, a missing field or a
mismatched wrapper or inner tag is an error rather than a default. -/
def parseExplicitAlgIdField (tagNum : Nat) (s : List Nat) :
    Except Asn1Err (AlgorithmIdentifier × List Nat) :=
  match s with
  | [] => .error (.syntaxError ("sequence truncated"))
  | _ :: _ =>
    match parseTag s with
    | .error e => .error e
    | .ok (ti, s1) =>
      match parseLen s1 with
      | .error e => .error e
      | .ok (n, s2) =>
        if s2 = [] then .error (.structuralError ("explicit tag has no child"))
        else if ti.Cls = 2 ∧ ti.Num = tagNum ∧ (n = 0 ∨ ti.IsCompound = true) then
          if n = 0 then .error (.structuralError ("zero length explicit tag was not a flag"))
          else parseAlgorithmIdentifier s2
        else .error (.structuralError ("explicit tag mismatch"))

/-- Parse a mandatory `asn1:"explicit,tag:<n>"` field holding a Go `int`. -/
def parseExplicitIntField (tagNum : Nat) (s : List Nat) : Except Asn1Err (Int × List Nat) :=
  match s with
  | [] => .error (.syntaxError ("sequence truncated"))
  | _ :: _ =>
    match parseTag s with
    | .error e => .error e
    | .ok (ti, s1) =>
      match parseLen s1 with
      | .error e => .error e
      | .ok (n, s2) =>
        if s2 = [] then .error (.structuralError ("explicit tag has no child"))
        else if ti.Cls = 2 ∧ ti.Num = tagNum ∧ (n = 0 ∨ ti.IsCompound = true) then
          if n = 0 then .error (.structuralError ("zero length explicit tag was not a flag"))
          else
            match parseTLV s2 with
            | .error e => .error e
            | .ok t2 =>
              if t2.info.Cls = 0 ∧ t2.info.IsCompound = false ∧ t2.info.Num = 2 then
                match parseInt64Content t2.content with
                | .error e => .error e
                | .ok v => .ok (v, t2.rest)
              else .error (.structuralError ("tag mismatch"))
        else .error (.structuralError ("explicit tag mismatch"))

/-- Parse the `asn1:"optional,explicit,tag:3,default:1"` trailer field of
`pssParameters`: mismatches yield the default 1 without consuming. -/
def parseTrailerField (s : List Nat) : Except Asn1Err (Int × List Nat) :=
  match s with
  | [] => .ok (1, [])
  | _ :: _ =>
    match parseTag s with
    | .error e => .error e
    | .ok (ti, s1) =>
      match parseLen s1 with
      | .error e => .error e
      | .ok (n, s2) =>
        if s2 = [] then .error (.structuralError ("explicit tag has no child"))
        else if ti.Cls = 2 ∧ ti.Num = 3 ∧ (n = 0 ∨ ti.IsCompound = true) then
          if n = 0 then .error (.structuralError ("zero length explicit tag was not a flag"))
          else
            match parseTLV s2 with
            | .error e => .error e
            | .ok t2 =>
              if t2.info.Cls = 0 ∧ t2.info.IsCompound = false ∧ t2.info.Num = 2 then
                match parseInt64Content t2.content with
                | .error e => .error e
                | .ok v => .ok (v, t2.rest)
              else .ok (1, s)
        else .ok (1, s)

/-- `asn1.Unmarshal` of a byte string into a `pssParameters` structure.  The
remainder after the outer SEQUENCE is returned; the caller at
src/ocsp.go line 317 discards it. -/
def unmarshalPSSParameters (bs : List Nat) : Except Asn1Err (pssParameters × List Nat) :=
  match expectTlv 0 true 16 bs with
  | .error e => .error e
  | .ok t =>
    match parseExplicitAlgIdField 0 t.content with
    | .error e => .error e
    | .ok (h, c1) =>
      match parseExplicitAlgIdField 1 c1 with
      | .error e => .error e
      | .ok (m, c2) =>
        match parseExplicitIntField 2 c2 with
        | .error e => .error e
        | .ok (salt, c3) =>
          match parseTrailerField c3 with
          | .error e => .error e
          | .ok (tf, _) =>
            .ok ({ Hash := h, MGF := m, SaltLength := salt, TrailerField := tf }, t.rest)

/-- `asn1.Unmarshal` of a byte string into a `pkix.AlgorithmIdentifier`
(used for the MGF1 hash function at src/ocsp.go line 322; the remainder is
discarded by the caller). -/
def unmarshalAlgorithmIdentifier (bs : List Nat) :
    Except Asn1Err (AlgorithmIdentifier × List Nat) :=
  parseAlgorithmIdentifier bs

/-- `getSignatureAlgorithmFromAI` (src/ocsp.go lines 304-349). -/
def getSignatureAlgorithmFromAI (ai : AlgorithmIdentifier) : Nat :=
  if ai.Algorithm ≠ oidSignatureRSAPSS then
    match signatureAlgorithmDetails.find? (fun d => d.oid == ai.Algorithm) with
    | some d => d.algo
    | none => UnknownSignatureAlgorithm
  else
    match unmarshalPSSParameters ai.Parameters.FullBytes with
    | .error _ => UnknownSignatureAlgorithm
    | .ok (params, _) =>
      match unmarshalAlgorithmIdentifier params.MGF.Parameters.FullBytes with
      | .error _ => UnknownSignatureAlgorithm
      | .ok (mgf1HashFunc, _) =>
        if (params.Hash.Parameters.FullBytes ≠ [] ∧
              params.Hash.Parameters.FullBytes ≠ NullBytes) ∨
           params.MGF.Algorithm ≠ oidMGF1 ∨
           mgf1HashFunc.Algorithm ≠ params.Hash.Algorithm ∨
           (mgf1HashFunc.Parameters.FullBytes ≠ [] ∧
              mgf1HashFunc.Parameters.FullBytes ≠ NullBytes) ∨
           params.TrailerField ≠ 1 then
          UnknownSignatureAlgorithm
        else if params.Hash.Algorithm = oidSHA256 ∧ params.SaltLength = 32 then
          SHA256WithRSAPSS
        else if params.Hash.Algorithm = oidSHA384 ∧ params.SaltLength = 48 then
          SHA384WithRSAPSS
        else if params.Hash.Algorithm = oidSHA512 ∧ params.SaltLength = 64 then
          SHA512WithRSAPSS
        else UnknownSignatureAlgorithm

/-! ## OCSP response data model (src/ocsp.go lines 30-144, 370-505)

Go `time.Time` values are modelled as `Int` instants with zero value `0`;
`asn1.Flag` is a `Bool`.  These appear only inside structures produced by the
external `basicResponse` decoder, so their representation carries no
byte-level commitments. -/

/-- `ResponseStatus` values (src/ocsp.go lines 36-45). -/
def Success : Int := 0
def Malformed : Int := 1
def InternalError : Int := 2
def TryLater : Int := 3
def SignatureRequired : Int := 5
def Unauthorized : Int := 6

/-- Certificate status values (src/ocsp.go lines 373-384). -/
def Good : Nat := 0
def Revoked : Nat := 1
def Unknown : Nat := 2
def ServerFailed : Nat := 3

/-- Go `asn1.BitString`. -/
structure BitString where
  Bytes : List Nat := []
  BitLength : Nat := 0
  deriving DecidableEq, Repr

/-- `BitString.RightAlign` of Go `encoding/asn1`: shift the bits down so the
padding moves to the leading byte. -/
def BitString.RightAlign (b : BitString) : List Nat :=
  let shift := 8 - b.BitLength % 8
  if shift = 8 ∨ b.Bytes = [] then b.Bytes
  else
    match b.Bytes with
    | [] => []
    | b0 :: rest =>
      (b0 / 2 ^ shift) ::
        List.zipWith (fun prev cur => (prev * 2 ^ (8 - shift) + cur / 2 ^ shift) % 256)
          (b0 :: rest) rest

/-- The part of Go `x509.Certificate` the package reads. -/
structure Certificate where
  Raw : List Nat := []
  RawTBSCertificate : List Nat := []
  RawSubject : List Nat := []
  RawSubjectPublicKeyInfo : List Nat := []
  SerialNumber : Int := 0
  SignatureAlgorithm : Nat := 0
  Signature : List Nat := []
  deriving DecidableEq, Repr

/-- The `revokedInfo` structure (src/ocsp.go lines 141-144). -/
structure revokedInfo where
  RevocationTime : Int := 0
  Reason : Int := 0
  deriving DecidableEq, Repr

/-- The `singleResponse` structure (src/ocsp.go lines 131-139). -/
structure singleResponse where
  CertID : certID := {}
  Good : Bool := false
  Revoked : revokedInfo := {}
  Unknown : Bool := false
  ThisUpdate : Int := 0
  NextUpdate : Int := 0
  SingleExtensions : List Extension := []
  deriving DecidableEq, Repr

/-- The `responseData` structure (src/ocsp.go lines 122-129). -/
structure responseData where
  Raw : List Nat := []
  Version : Int := 0
  RawResponderID : RawValue := {}
  ProducedAt : Int := 0
  Responses : List singleResponse := []
  ResponseExtensions : List Extension := []
  deriving DecidableEq, Repr

/-- The `basicResponse` structure (src/ocsp.go lines 115-120). -/
structure basicResponse where
  TBSResponseData : responseData := {}
  SignatureAlgorithm : AlgorithmIdentifier := {}
  Signature : BitString := {}
  Certificates : List RawValue := []
  deriving DecidableEq, Repr

/-- The `responseBytes` structure (src/ocsp.go lines 110-113). -/
structure responseBytes where
  ResponseType : List Nat := []
  Response : List Nat := []
  deriving DecidableEq, Repr

/-- The `responseASN1` envelope (src/ocsp.go lines 105-108). -/
structure responseASN1 where
  Status : Int := 0
  Response : responseBytes := {}
  deriving DecidableEq, Repr

/-- The exported `Response` structure (src/ocsp.go lines 438-493).  The Go
fields `RawResponderName` and `ResponderKeyHash` are nil byte slices until
one of them is assigned; `Option` models that nil/non-nil distinction. -/
structure Response where
  Raw : List Nat := []
  Status : Nat := 0
  SerialNumber : Int := 0
  ProducedAt : Int := 0
  ThisUpdate : Int := 0
  NextUpdate : Int := 0
  RevokedAt : Int := 0
  RevocationReason : Int := 0
  Certificate : Option Certificate := none
  TBSResponseData : List Nat := []
  Signature : List Nat := []
  SignatureAlgorithm : Nat := 0
  IssuerHash : Nat := 0
  RawResponderName : Option (List Nat) := none
  ResponderKeyHash : Option (List Nat) := none
  Extensions : List Extension := []
  ExtraExtensions : List Extension := []
  ResponseExtensions : List Extension := []
  ResponseExtraExtensions : List Extension := []
  deriving DecidableEq, Repr

/-- The pre-serialized error responses (src/ocsp.go lines 499-505). -/
def MalformedRequestErrorResponse : List Nat := [0x30, 0x03, 0x0A, 0x01, 0x01]
def InternalErrorErrorResponse : List Nat := [0x30, 0x03, 0x0A, 0x01, 0x02]
def TryLaterErrorResponse : List Nat := [0x30, 0x03, 0x0A, 0x01, 0x03]
def SigRequredErrorResponse : List Nat := [0x30, 0x03, 0x0A, 0x01, 0x05]
def UnauthorizedErrorResponse : List Nat := [0x30, 0x03, 0x0A, 0x01, 0x06]

/-- External collaborators of `ParseResponseForCert`: X.509 certificate
parsing, X.509 signature verification (`(*x509.Certificate).CheckSignature`),
and the `asn1.Unmarshal` of the `basicResponse` structure, whose time fields
lie outside the byte-level model of this file.  The pipeline theorems hold
for every choice of these functions. -/
structure Externals where
  parseCertificate : List Nat → Except String Certificate
  checkSignature : Certificate → Nat → List Nat → List Nat → Except String Unit
  unmarshalBasicResponse : List Nat → Except Asn1Err (basicResponse × List Nat)

/-- `(*Response).CheckSignatureFrom` (src/ocsp.go lines 512-514). -/
def CheckSignatureFrom (env : Externals) (resp : Response) (issuer : Certificate) :
    Except String Unit :=
  env.checkSignature issuer resp.SignatureAlgorithm resp.TBSResponseData resp.Signature

/-! ## Decoding the top-level response envelope

`asn1.Unmarshal` into `responseASN1`: a SEQUENCE holding an ENUMERATED
status and an `asn1:"explicit,tag:0,optional"` `responseBytes`. -/

/-- Parse a universal ENUMERATED TLV (Go parses `asn1.Enumerated` with
`parseInt32`). -/
def parseEnumeratedTLV (s : List Nat) : Except Asn1Err (Int × List Nat) :=
  match expectTlv 0 false 10 s with
  | .error e => .error e
  | .ok t =>
    match parseInt32Content t.content with
    | .error e => .error e
    | .ok v => .ok (v, t.rest)

/-- Parse the content of a `responseBytes` SEQUENCE: an OID and an OCTET
STRING, extra bytes ignored. -/
def parseResponseBytesContent (c : List Nat) : Except Asn1Err responseBytes :=
  match parseOIDTLV c with
  | .error e => .error e
  | .ok (oid, r1) =>
    match parseOctetStringTLV r1 with
    | .error e => .error e
    | .ok (bs, _) => .ok { ResponseType := oid, Response := bs }

/-- Parse the `Response` field of `responseASN1`
(`asn1:"explicit,tag:0,optional"`, a `responseBytes`). -/
def parseResponseBytesField (s : List Nat) : Except Asn1Err (responseBytes × List Nat) :=
  match s with
  | [] => .ok ({}, [])
  | _ :: _ =>
    match parseTag s with
    | .error e => .error e
    | .ok (ti, s1) =>
      match parseLen s1 with
      | .error e => .error e
      | .ok (n, s2) =>
        if s2 = [] then .error (.structuralError ("explicit tag has no child"))
        else if ti.Cls = 2 ∧ ti.Num = 0 ∧ (n = 0 ∨ ti.IsCompound = true) then
          if n = 0 then .error (.structuralError ("zero length explicit tag was not a flag"))
          else
            match parseTLV s2 with
            | .error e => .error e
            | .ok t2 =>
              if t2.info.Cls = 0 ∧ t2.info.IsCompound = true ∧ t2.info.Num = 16 then
                match parseResponseBytesContent t2.content with
                | .error e => .error e
                | .ok rb => .ok (rb, t2.rest)
              else .ok ({}, s)
        else .ok ({}, s)

/-- `asn1.Unmarshal` of a DER byte string into a `responseASN1` envelope. -/
def unmarshalResponseASN1 (der : List Nat) : Except Asn1Err (responseASN1 × List Nat) :=
  match expectTlv 0 true 16 der with
  | .error e => .error e
  | .ok t =>
    match parseEnumeratedTLV t.content with
    | .error e => .error e
    | .ok (st, c1) =>
      match parseResponseBytesField c1 with
      | .error e => .error e
      | .ok (rb, _) => .ok ({ Status := st, Response := rb }, t.rest)

/-- `asn1.Unmarshal` of an OCTET STRING into a `[]byte`, as used for the
responder key hash (src/ocsp.go line 652). -/
def unmarshalOctetString (bs : List Nat) : Except Asn1Err (List Nat × List Nat) :=
  parseOctetStringTLV bs

/-! ## The `ParseResponseForCert` pipeline (src/ocsp.go lines 579-715)

The body after the two `asn1.Unmarshal` calls is split into named stages
that follow the source blocks in order: single-response selection (lines
606-625), the `ret` literal (lines 627-638), the ResponderID CHOICE switch
(lines 640-657), certificate and signature handling (lines 659-685), the
critical-extension loop (lines 687-691), issuer hash resolution (lines
693-701) and status classification (lines 703-712). -/

/-- Single-response selection (src/ocsp.go lines 606-625): reject zero
entries, reject several entries when no certificate disambiguates, otherwise
take the first entry, or with a certificate the first entry whose serial
number matches. -/
def selectSingleResp (cert : Option Certificate) (responses : List singleResponse) :
    Except OcspError singleResponse :=
  if responses.length = 0 ∨ (cert = none ∧ 1 < responses.length) then
    .error (.parseError ("OCSP response contains bad number of responses"))
  else
    match cert with
    | none =>
      match responses with
      | [] => .error (.parseError ("OCSP response contains bad number of responses"))
      | r :: _ => .ok r
    | some c =>
      match responses.find? (fun r => r.CertID.SerialNumber == c.SerialNumber) with
      | some r => .ok r
      | none => .error (.parseError ("no response matching the supplied certificate"))

/-- The `ret` literal of src/ocsp.go lines 627-638; all other fields keep
their zero values. -/
def initResponse (der : List Nat) (basicResp : basicResponse) (singleResp : singleResponse) :
    Response :=
  { Raw := der,
    TBSResponseData := basicResp.TBSResponseData.Raw,
    Signature := basicResp.Signature.RightAlign,
    SignatureAlgorithm := getSignatureAlgorithmFromAI basicResp.SignatureAlgorithm,
    Extensions := singleResp.SingleExtensions,
    SerialNumber := singleResp.CertID.SerialNumber,
    ProducedAt := basicResp.TBSResponseData.ProducedAt,
    ResponseExtensions := basicResp.TBSResponseData.ResponseExtensions,
    ThisUpdate := singleResp.ThisUpdate,
    NextUpdate := singleResp.NextUpdate }

/-- ResponderID CHOICE resolution (src/ocsp.go lines 640-657): the switch
inspects only the raw tag number. -/
def resolveResponderID (rawResponderID : RawValue) (ret : Response) :
    Except OcspError Response :=
  match rawResponderID.Tag with
  | 1 =>
    match parseRDNSequence rawResponderID.Bytes with
    | .error _ => .error (.parseError ("invalid responder name"))
    | .ok (_, rest) =>
      if rest ≠ [] then .error (.parseError ("invalid responder name"))
      else .ok { ret with RawResponderName := some rawResponderID.Bytes }
  | 2 =>
    match unmarshalOctetString rawResponderID.Bytes with
    | .error _ => .error (.parseError ("invalid responder key hash"))
    | .ok (kh, rest) =>
      if rest ≠ [] then .error (.parseError ("invalid responder key hash"))
      else .ok { ret with ResponderKeyHash := some kh }
  | _ => .error (.parseError ("invalid responder id tag"))

/-- Certificate and signature handling (src/ocsp.go lines 659-685): with an
embedded certificate list only the first element is parsed and used; its
verification failure is fatal regardless of the issuer; a supplied issuer
additionally verifies the embedded certificate, or, with no embedded
certificate, verifies the response signature directly. -/
def checkCertificates (env : Externals) (basicResp : basicResponse)
    (issuer : Option Certificate) (ret : Response) : Except OcspError Response :=
  match basicResp.Certificates with
  | c0 :: _ =>
    match env.parseCertificate c0.FullBytes with
    | .error e => .error (.x509Error e)
    | .ok cert0 =>
      let ret1 := { ret with Certificate := some cert0 }
      match CheckSignatureFrom env ret1 cert0 with
      | .error e => .error (.parseError ("bad signature on embedded certificate: " ++ e))
      | .ok _ =>
        match issuer with
        | some iss =>
          match env.checkSignature iss cert0.SignatureAlgorithm cert0.RawTBSCertificate
              cert0.Signature with
          | .error e => .error (.parseError ("bad OCSP signature: " ++ e))
          | .ok _ => .ok ret1
        | none => .ok ret1
  | [] =>
    match issuer with
    | some iss =>
      match CheckSignatureFrom env ret iss with
      | .error e => .error (.parseError ("bad OCSP signature: " ++ e))
      | .ok _ => .ok ret
    | none => .ok ret

/-- Issuer hash resolution (src/ocsp.go lines 693-701). -/
def resolveIssuerHash (singleResp : singleResponse) (ret : Response) :
    Except OcspError Response :=
  let ret1 :=
    match hashOIDs.find? (fun p => p.2 == singleResp.CertID.HashAlgorithm.Algorithm) with
    | some p => { ret with IssuerHash := p.1 }
    | none => ret
  if ret1.IssuerHash = 0 then .error (.parseError ("unsupported issuer hash algorithm"))
  else .ok ret1

/-- Status classification (src/ocsp.go lines 703-712): `Good` wins, then
`Unknown`, else `Revoked` with the revocation time and reason copied from
the nested `revokedInfo`. -/
def classifyStatus (singleResp : singleResponse) (ret : Response) : Response :=
  if singleResp.Good then { ret with Status := Good }
  else if singleResp.Unknown then { ret with Status := Unknown }
  else { ret with Status := Revoked,
                  RevokedAt := singleResp.Revoked.RevocationTime,
                  RevocationReason := singleResp.Revoked.Reason }

/-- The body of `ParseResponseForCert` after the `basicResponse` has been
decoded (src/ocsp.go lines 606-714). -/
def parseBasicResponseForCert (env : Externals) (der : List Nat)
    (basicResp : basicResponse) (cert issuer : Option Certificate) :
    Except OcspError Response :=
  match selectSingleResp cert basicResp.TBSResponseData.Responses with
  | .error e => .error e
  | .ok singleResp =>
    match resolveResponderID basicResp.TBSResponseData.RawResponderID
        (initResponse der basicResp singleResp) with
    | .error e => .error e
    | .ok ret1 =>
      match checkCertificates env basicResp issuer ret1 with
      | .error e => .error e
      | .ok ret2 =>
        if singleResp.SingleExtensions.any (fun e => e.Critical) then
          .error (.parseError ("unsupported critical extension"))
        else
          match resolveIssuerHash singleResp ret2 with
          | .error e => .error e
          | .ok ret3 => .ok (classifyStatus singleResp ret3)

/-- `ParseResponseForCert` (src/ocsp.go lines 579-715). -/
def ParseResponseForCert (env : Externals) (der : List Nat)
    (cert issuer : Option Certificate) : Except OcspError Response :=
  match unmarshalResponseASN1 der with
  | .error e => .error (.asn1Error e)
  | .ok (resp, rest) =>
    if rest ≠ [] then .error (.parseError ("trailing data in OCSP response"))
    else if resp.Status ≠ Success then .error (.responseError resp.Status)
    else if resp.Response.ResponseType ≠ idPKIXOCSPBasic then
      .error (.parseError ("bad OCSP response type"))
    else
      match env.unmarshalBasicResponse resp.Response.Response with
      | .error e => .error (.asn1Error e)
      | .ok (basicResp, rest2) =>
        if rest2 ≠ [] then .error (.parseError ("trailing data in OCSP response"))
        else parseBasicResponseForCert env der basicResp cert issuer

/-- `ParseResponse` (src/ocsp.go lines 570-572). -/
def ParseResponse (env : Externals) (der : List Nat) (issuer : Option Certificate) :
    Except OcspError Response :=
  ParseResponseForCert env der none issuer

/-! ## Concrete values used by witnesses and counterexamples -/

/-- The `RawValue` that Go reads back for an encoded ASN.1 NULL parameter. -/
def parsedNullParameters : RawValue :=
  { Cls := 0, Tag := 5, IsCompound := false, Bytes := [], FullBytes := [5, 0] }

/-- A minimal error envelope: `SEQUENCE { ENUMERATED b }` for a one-byte
status `b` below 128.  At `b = 1, 2, 3, 5, 6` this is byte for byte the
corresponding pre-serialized error response. -/
def mkErrEnvelope (b : Nat) : List Nat := [0x30, 0x03, 0x0A, 0x01, b]

/-- An external environment whose signature checks succeed. -/
def okExternals : Externals :=
  { parseCertificate := fun _ => .ok {},
    checkSignature := fun _ _ _ _ => .ok (),
    unmarshalBasicResponse := fun _ => .error (.syntaxError ("unused")) }

/-- An external environment whose signature checks all fail. -/
def failSigExternals : Externals :=
  { parseCertificate := fun _ => .ok {},
    checkSignature := fun _ _ _ _ => .error ("verification error"),
    unmarshalBasicResponse := fun _ => .error (.syntaxError ("unused")) }

/-- A good-status single response with a SHA-1 `certID` and serial 1. -/
def testSingleGood : singleResponse :=
  { CertID := { HashAlgorithm := { Algorithm := oidSHA1 }, SerialNumber := 1 },
    Good := true, ThisUpdate := 5, NextUpdate := 6 }

/-- A revoked-status single response (neither flag set) with revocation
data. -/
def testSingleRevoked : singleResponse :=
  { CertID := { HashAlgorithm := { Algorithm := oidSHA256 }, SerialNumber := 2 },
    Revoked := { RevocationTime := 77, Reason := 1 }, ThisUpdate := 5, NextUpdate := 6 }

/-- A key-hash responder id: context tag 2 wrapping the octet string
`04 01 AB`. -/
def testResponderKeyId : RawValue :=
  { Cls := 2, Tag := 2, IsCompound := true, Bytes := [4, 1, 171] }

/-- A by-name responder id: context tag 1 wrapping an empty distinguished
name `30 00`. -/
def testResponderNameId : RawValue :=
  { Cls := 2, Tag := 1, IsCompound := true, Bytes := [48, 0] }

/-- A basic response with one good entry and a key-hash responder id. -/
def testBasicGood : basicResponse :=
  { TBSResponseData :=
      { Raw := [9], RawResponderID := testResponderKeyId,
        ProducedAt := 7, Responses := [testSingleGood] },
    SignatureAlgorithm := { Algorithm := oidSignatureSHA256WithRSA },
    Signature := { Bytes := [1], BitLength := 8 } }

/-- A basic response whose only entry carries a critical single extension
and whose responder id tag is the invalid tag 0. -/
def testBasicCriticalBadTag : basicResponse :=
  { TBSResponseData :=
      { Raw := [9], RawResponderID := { Cls := 2, Tag := 0, IsCompound := true, Bytes := [] },
        ProducedAt := 7,
        Responses := [{ testSingleGood with
          SingleExtensions := [{ Id := [1, 2], Critical := true, Value := [0] }] }] },
    SignatureAlgorithm := { Algorithm := oidSignatureSHA256WithRSA },
    Signature := { Bytes := [1], BitLength := 8 } }

/-- A basic response whose only entry carries a critical single extension
and which is otherwise fully valid (key-hash responder id, no embedded
certificates). -/
def testBasicCritical : basicResponse :=
  { TBSResponseData :=
      { Raw := [9], RawResponderID := testResponderKeyId,
        ProducedAt := 7,
        Responses := [{ testSingleGood with
          SingleExtensions := [{ Id := [1, 2], Critical := true, Value := [0] }] }] },
    SignatureAlgorithm := { Algorithm := oidSignatureSHA256WithRSA },
    Signature := { Bytes := [1], BitLength := 8 } }

/-- A basic response with two entries (serials 1 and 2) and a key-hash
responder id. -/
def testBasicTwo : basicResponse :=
  { TBSResponseData :=
      { Raw := [9], RawResponderID := testResponderKeyId,
        ProducedAt := 7, Responses := [testSingleGood, testSingleRevoked] },
    SignatureAlgorithm := { Algorithm := oidSignatureSHA256WithRSA },
    Signature := { Bytes := [1], BitLength := 8 } }

/-- A basic response with one embedded certificate blob. -/
def testBasicWithCert : basicResponse :=
  { testBasicGood with Certificates := [{ FullBytes := [7, 7] }] }

/-- The response `parseBasicResponseForCert` produces for `testBasicGood`
with no certificate, no issuer and succeeding externals. -/
def testParsedGood : Response :=
  { Raw := [], Status := Good, SerialNumber := 1, ProducedAt := 7, ThisUpdate := 5,
    NextUpdate := 6, TBSResponseData := [9], Signature := [1],
    SignatureAlgorithm := SHA256WithRSA, IssuerHash := cryptoSHA1,
    ResponderKeyHash := some [171] }

/-- The golden request of the specification: SHA-1, twenty zero bytes for
both hashes, serial 1. -/
def goldenRequest : Request :=
  { HashAlgorithm := cryptoSHA1,
    IssuerNameHash := List.replicate 20 0,
    IssuerKeyHash := List.replicate 20 0,
    SerialNumber := 1 }

/-- The DER bytes of the golden request's `tbsRequest`. -/
def goldenTbsBytes : List Nat :=
  [48, 64, 48, 62, 48, 60, 48, 58, 48, 9, 6, 5, 43, 14, 3, 2, 26, 5, 0,
   4, 20, 0, 0, 0, 0, 0, 0, 0, 0, 0, 0, 0, 0, 0, 0, 0, 0, 0, 0, 0, 0,
   4, 20, 0, 0, 0, 0, 0, 0, 0, 0, 0, 0, 0, 0, 0, 0, 0, 0, 0, 0, 0, 0,
   2, 1, 1]

/-- The DER bytes of the golden request. -/
def goldenRequestBytes : List Nat := 48 :: 66 :: goldenTbsBytes

/-- The golden request with an RFC 6960 `optionalSignature` component
(`[0] EXPLICIT`, here wrapping a placeholder SEQUENCE) appended inside the
outer `OCSPRequest` SEQUENCE: a signed OCSP request. -/
def signedRequestBytes : List Nat := 48 :: 71 :: (goldenTbsBytes ++ [160, 3, 48, 1, 0])

/-- A request whose request list is empty (`SEQUENCE { SEQUENCE {
SEQUENCE {} , OCTET STRING 00 } }`; the trailing octet string keeps the
empty list away from the end-of-data corner of the explicit-tag parser,
matching how Go reports this input). -/
def emptyListRequestBytes : List Nat := [48, 7, 48, 5, 48, 0, 4, 1, 0]

/-- The golden request with its SHA-1 hash OID replaced by the MD5 OID
`1.2.840.113549.2.5`, which is not a recognized hash. -/
def md5RequestBytes : List Nat :=
  [48, 69, 48, 67, 48, 65, 48, 63, 48, 61, 48, 12, 6, 8, 42, 134, 72, 134, 247, 13, 2, 5,
   5, 0, 4, 20, 0, 0, 0, 0, 0, 0, 0, 0, 0, 0, 0, 0, 0, 0, 0, 0, 0, 0, 0, 0,
   4, 20, 0, 0, 0, 0, 0, 0, 0, 0, 0, 0, 0, 0, 0, 0, 0, 0, 0, 0, 0, 0, 2, 1, 1]

/-! ## Helper lemmas: byte strings -/

theorem take_length_append (a b : List Nat) : (a ++ b).take a.length = a := by
  induction a with
  | nil => simp
  | cons x t ih => simp [ih]

theorem drop_length_append (a b : List Nat) : (a ++ b).drop a.length = b := by
  induction a with
  | nil => simp
  | cons x t ih => simp [ih]

theorem fromBytesAux_eq (acc : Nat) (bs : List Nat) :
    fromBytesAux acc bs = acc * 256 ^ bs.length + fromBytes bs := by
  induction bs generalizing acc with
  | nil => simp [fromBytesAux, fromBytes]
  | cons b t ih =>
    show fromBytesAux (acc * 256 + b) t = acc * 256 ^ (t.length + 1) + fromBytes (b :: t)
    rw [ih]
    show _ = acc * 256 ^ (t.length + 1) + fromBytesAux (0 * 256 + b) t
    rw [ih (0 * 256 + b)]
    ring

theorem fromBytes_cons (b : Nat) (t : List Nat) :
    fromBytes (b :: t) = b * 256 ^ t.length + fromBytes t := by
  show fromBytesAux (0 * 256 + b) t = _
  rw [fromBytesAux_eq]
  ring_nf

theorem natBytesF_zero (f : Nat) : natBytesF f 0 = [] := by
  cases f <;> simp [natBytesF]

theorem natBytesF_congr (f1 : Nat) : ∀ f2 n, n ≤ f1 → n ≤ f2 → natBytesF f1 n = natBytesF f2 n := by
  induction f1 with
  | zero =>
    intro f2 n h1 _
    interval_cases n
    simp [natBytesF_zero]
  | succ k ih =>
    intro f2 n h1 h2
    rcases Nat.eq_zero_or_pos n with h | h
    · subst h; simp [natBytesF_zero]
    · obtain ⟨m, rfl⟩ : ∃ m, f2 = m + 1 := ⟨f2 - 1, by omega⟩
      show natBytesF (k + 1) n = natBytesF (m + 1) n
      rw [natBytesF, natBytesF, if_neg (by omega), if_neg (by omega)]
      have hd : n / 256 < n := Nat.div_lt_self h (by norm_num)
      rw [ih m (n / 256) (by omega) (by omega)]

theorem natBytes_eq (n : Nat) :
    natBytes n = if n = 0 then [] else natBytes (n / 256) ++ [n % 256] := by
  rcases Nat.eq_zero_or_pos n with h | h
  · subst h; simp [natBytes, natBytesF]
  · rw [if_neg (by omega)]
    show natBytesF n n = _
    obtain ⟨k, rfl⟩ : ∃ k, n = k + 1 := ⟨n - 1, by omega⟩
    rw [natBytesF, if_neg (by omega)]
    have hd : (k + 1) / 256 < k + 1 := Nat.div_lt_self h (by norm_num)
    rw [natBytesF_congr k ((k + 1) / 256) ((k + 1) / 256) (by omega) (by omega)]
    rfl

theorem fromBytesAux_append (acc : Nat) (xs ys : List Nat) :
    fromBytesAux acc (xs ++ ys) = fromBytesAux (fromBytesAux acc xs) ys := by
  induction xs generalizing acc with
  | nil => rfl
  | cons b t ih => simp [fromBytesAux, ih]

theorem fromBytes_append_singleton (bs : List Nat) (b : Nat) :
    fromBytes (bs ++ [b]) = fromBytes bs * 256 + b := by
  show fromBytesAux 0 (bs ++ [b]) = _
  rw [fromBytesAux_append]
  rfl

theorem fromBytes_natBytes (n : Nat) : fromBytes (natBytes n) = n := by
  induction n using Nat.strong_induction_on with
  | _ n ih =>
    rcases Nat.eq_zero_or_pos n with h | h
    · subst h; simp [natBytes, natBytesF, fromBytes, fromBytesAux]
    · rw [natBytes_eq, if_neg (by omega), fromBytes_append_singleton,
        ih (n / 256) (Nat.div_lt_self h (by norm_num))]
      omega

theorem natBytes_exists (n : Nat) (h : n ≠ 0) :
    ∃ b t, natBytes n = b :: t ∧ 0 < b ∧ b < 256 ∧ ∀ x ∈ t, x < 256 := by
  induction n using Nat.strong_induction_on with
  | _ n ih =>
    rw [natBytes_eq, if_neg h]
    rcases Nat.lt_or_ge n 256 with hlt | hge
    · have : n / 256 = 0 := Nat.div_eq_of_lt hlt
      rw [this]
      exact ⟨n % 256, [], by simp [natBytes, natBytesF], by omega, by omega, by simp⟩
    · have hne : n / 256 ≠ 0 := by
        have h1 : 1 ≤ n / 256 := (Nat.one_le_div_iff (by norm_num)).mpr hge
        omega
      obtain ⟨b, t, heq, hb0, hb, ht⟩ := ih (n / 256) (Nat.div_lt_self (by omega) (by norm_num)) hne
      refine ⟨b, t ++ [n % 256], by rw [heq]; rfl, hb0, hb, ?_⟩
      intro x hx
      rcases List.mem_append.mp hx with hx | hx
      · exact ht x hx
      · simp at hx; omega

theorem natBytes_all_lt (n : Nat) : ∀ x ∈ natBytes n, x < 256 := by
  induction n using Nat.strong_induction_on with
  | _ n ih =>
    rcases Nat.eq_zero_or_pos n with h | h
    · subst h; simp [natBytes, natBytesF]
    · rw [natBytes_eq, if_neg (by omega)]
      intro x hx
      rcases List.mem_append.mp hx with hx | hx
      · exact ih (n / 256) (Nat.div_lt_self h (by norm_num)) x hx
      · simp at hx; omega

theorem natBytes_length_le (k : Nat) : ∀ n, n < 256 ^ k → (natBytes n).length ≤ k := by
  induction k with
  | zero =>
    intro n h
    interval_cases n
    simp [natBytes, natBytesF]
  | succ k ih =>
    intro n h
    rcases Nat.eq_zero_or_pos n with h0 | h0
    · subst h0; simp [natBytes, natBytesF]
    · rw [natBytes_eq, if_neg (by omega)]
      have : n / 256 < 256 ^ k := by
        rw [Nat.div_lt_iff_lt_mul (by norm_num)]
        calc n < 256 ^ (k + 1) := h
        _ = 256 ^ k * 256 := by ring
      simpa using ih (n / 256) this

/-! ## Helper lemmas: DER lengths and TLVs -/

theorem parseLenLoop_spec (ds : List Nat) :
    ∀ (s : List Nat) (acc n : Nat),
      acc * 256 ^ ds.length + fromBytes ds = n → n < 2 ^ 23 → 128 ≤ n →
      (0 < acc ∨ ∃ b t, ds = b :: t ∧ 0 < b) →
      parseLenLoop ds.length acc (ds ++ s) = .ok (n, s) := by
  induction ds with
  | nil =>
    intro s acc n hval hn h128 _
    have hacc : acc = n := by simpa [fromBytes, fromBytesAux] using hval
    subst hacc
    simp only [List.length_nil, List.nil_append, parseLenLoop]
    rw [if_neg (by omega)]
  | cons b t ih =>
    intro s acc n hval hn h128 hpos
    have hacc : acc < 2 ^ 23 := by
      have h1 : acc ≤ acc * 256 ^ (b :: t).length := Nat.le_mul_of_pos_right acc (by positivity)
      omega
    have hstep : (acc * 256 + b) * 256 ^ t.length + fromBytes t = n := by
      rw [← hval, fromBytes_cons, List.length_cons, pow_succ]
      ring
    have hpos' : 0 < acc * 256 + b := by
      rcases hpos with h | ⟨b', t', heq, hb⟩
      · positivity
      · injection heq with h1 h2
        omega
    show parseLenLoop (t.length + 1) acc (b :: (t ++ s)) = .ok (n, s)
    rw [parseLenLoop]
    simp only [if_neg (by omega : ¬ 2 ^ 23 ≤ acc), if_neg (by omega : ¬ acc * 256 + b = 0)]
    exact ih s (acc * 256 + b) n hstep hn h128 (Or.inl hpos')

theorem parseLen_encLen (n : Nat) (s : List Nat) (h : n < 2 ^ 23) :
    parseLen (encLen n ++ s) = .ok (n, s) := by
  rcases Nat.lt_or_ge n 128 with hlt | hge
  · rw [encLen, if_pos hlt]
    simp [parseLen, hlt]
  · rw [encLen, if_neg (by omega)]
    obtain ⟨b, t, heq, hb0, _, _⟩ := natBytes_exists n (by omega)
    have hlen3 : (natBytes n).length ≤ 3 := natBytes_length_le 3 n (by norm_num at h ⊢; omega)
    have hlen1 : 1 ≤ (natBytes n).length := by rw [heq]; simp
    show parseLen ((128 + (natBytes n).length) :: (natBytes n ++ s)) = .ok (n, s)
    rw [parseLen]
    rw [if_neg (by omega), if_neg (by omega : ¬ (128 + (natBytes n).length) % 128 = 0)]
    have hmod : (128 + (natBytes n).length) % 128 = (natBytes n).length := by omega
    rw [hmod]
    exact parseLenLoop_spec (natBytes n) s 0 n (by simp [fromBytes_natBytes]) h hge
      (Or.inr ⟨b, t, heq, hb0⟩)

theorem parseTag_cons (b : Nat) (t : List Nat) (h : b % 32 ≠ 31) :
    parseTag (b :: t) = .ok (⟨b / 64, b / 32 % 2 == 1, b % 32⟩, t) := by
  simp [parseTag, h]

theorem encTLV_length (tag : Nat) (c : List Nat) :
    (encTLV tag c).length = 1 + (encLen c.length).length + c.length := by
  simp [encTLV]
  omega

theorem parseTLV_enc (tag : Nat) (c s : List Nat) (htag : tag % 32 ≠ 31)
    (hlen : c.length < 2 ^ 23) :
    parseTLV (encTLV tag c ++ s) =
      .ok ⟨⟨tag / 64, tag / 32 % 2 == 1, tag % 32⟩, c, encTLV tag c, s⟩ := by
  have hshape : encTLV tag c ++ s = tag :: (encLen c.length ++ (c ++ s)) := by
    simp [encTLV]
  have hge : ¬ (c ++ s).length < c.length := by simp
  rw [hshape]
  simp only [parseTLV, parseTag_cons tag _ htag, parseLen_encLen c.length (c ++ s) hlen]
  rw [if_neg hge]
  have harith : (tag :: (encLen c.length ++ (c ++ s))).length -
      ((c ++ s).length - c.length) = (encTLV tag c).length := by
    simp [encTLV_length]
    omega
  rw [take_length_append, drop_length_append, harith, ← hshape, take_length_append]

theorem expectSeq_enc (c s : List Nat) (hlen : c.length < 2 ^ 23) :
    expectTlv 0 true 16 (encTLV 48 c ++ s) = .ok ⟨⟨0, true, 16⟩, c, encTLV 48 c, s⟩ := by
  rw [expectTlv, parseTLV_enc 48 c s (by norm_num) hlen]
  norm_num

theorem parseOctetStringTLV_enc (bs s : List Nat) (h : bs.length < 2 ^ 23) :
    parseOctetStringTLV (encTLV 4 bs ++ s) = .ok (bs, s) := by
  rw [parseOctetStringTLV, expectTlv, parseTLV_enc 4 bs s (by norm_num) h]
  norm_num

theorem encLen_length_le (n : Nat) (h : n < 2 ^ 23) : (encLen n).length ≤ 4 := by
  rw [encLen]
  split
  · simp
  · have : (natBytes n).length ≤ 3 := natBytes_length_le 3 n (by norm_num at h ⊢; omega)
    simp
    omega

/-! ## Helper lemmas: DER integers -/

theorem fromBytes_map_compl (bs : List Nat) (h : ∀ x ∈ bs, x < 256) :
    (fromBytes (bs.map fun b => 255 - b) : Int) = 256 ^ bs.length - 1 - fromBytes bs := by
  induction bs with
  | nil => simp [fromBytes, fromBytesAux]
  | cons b t ih =>
    have hb : b < 256 := h b (by simp)
    have ht : ∀ x ∈ t, x < 256 := fun x hx => h x (by simp [hx])
    simp only [List.map_cons, fromBytes_cons, List.length_map, List.length_cons]
    push_cast
    rw [ih ht]
    have hcast : ((255 - b : Nat) : Int) = 255 - (b : Int) := by omega
    rw [hcast, pow_succ]
    ring

theorem checkIntegerOk_encInt (i : Int) : checkIntegerOk (encInt i) = true := by
  rw [encInt]
  rcases lt_trichotomy i 0 with hneg | hzero | hpos
  · rw [if_neg (by omega), if_neg (by omega)]
    set cs := (natBytes (-i - 1).toNat).map (fun b => 255 - b) with hcs
    by_cases hc : cs = [] ∨ cs.headD 0 < 128
    · rw [if_pos hc]
      match hm : cs with
      | [] => rfl
      | c1 :: cs' =>
        have hc1 : c1 < 128 := by
          rcases hc with h | h
          · simp at h
          · simpa [hm] using h
        simp [checkIntegerOk]
        omega
    · rw [if_neg hc]
      push_neg at hc
      obtain ⟨hne, hge⟩ := hc
      have hm0 : (-i - 1).toNat ≠ 0 := by
        intro h0
        rw [hcs] at hne
        simp [h0, natBytes, natBytesF] at hne
      obtain ⟨b, t, heq, hb0, hblt, _⟩ := natBytes_exists (-i - 1).toNat hm0
      have hcs' : cs = (255 - b) :: t.map (fun x => 255 - x) := by
        rw [hcs, heq]
        rfl
      match ht : t.map (fun x => 255 - x) with
      | [] => rw [hcs', ht]; rfl
      | c2 :: cs'' =>
        rw [hcs', ht]
        have hhead : 128 ≤ 255 - b := by
          have := hge
          rw [hcs', ht] at this
          simpa using this
        simp [checkIntegerOk]
        omega
  · subst hzero; rfl
  · rw [if_neg (by omega), if_pos hpos]
    obtain ⟨b, t, heq, hb0, hblt, _⟩ := natBytes_exists i.toNat (by omega)
    rw [heq]
    by_cases hb : 128 ≤ (b :: t).headD 0
    · rw [if_pos hb]
      simp at hb
      simp [checkIntegerOk]
      omega
    · rw [if_neg hb]
      simp at hb
      match t with
      | [] => rfl
      | t1 :: t' =>
        simp [checkIntegerOk]
        omega

theorem two_pow_8mul (L : Nat) : (2 : Int) ^ (8 * L) = 256 ^ L := by
  rw [pow_mul]
  norm_num

theorem derIntValue_encInt (i : Int) : derIntValue (encInt i) = i := by
  rw [encInt]
  rcases lt_trichotomy i 0 with hneg | hzero | hpos
  · rw [if_neg (by omega), if_neg (by omega)]
    have hm : ((-i - 1).toNat : Int) = -i - 1 := Int.toNat_of_nonneg (by omega)
    have hlt : ∀ x ∈ natBytes (-i - 1).toNat, x < 256 := natBytes_all_lt _
    set bs := natBytes (-i - 1).toNat with hbs
    set cs := bs.map (fun b => 255 - b) with hcs
    have hfrom : (fromBytes cs : Int) = 256 ^ bs.length - 1 - fromBytes bs := by
      rw [hcs]
      exact fromBytes_map_compl bs hlt
    have hval : (fromBytes bs : Int) = -i - 1 := by
      rw [hbs, fromBytes_natBytes, hm]
    by_cases hc : cs = [] ∨ cs.headD 0 < 128
    · rw [if_pos hc]
      have hL : cs.length = bs.length := by rw [hcs]; simp
      rw [derIntValue]
      have hhead : 128 ≤ ((255 : Nat) :: cs).headD 0 := by simp
      rw [if_pos hhead, fromBytes_cons]
      push_cast
      rw [hfrom, hval]
      simp only [List.length_cons, hL, two_pow_8mul]
      ring
    · rw [if_neg hc]
      push_neg at hc
      obtain ⟨hne, hge⟩ := hc
      rw [derIntValue]
      have hhead : 128 ≤ cs.headD 0 := hge
      rw [if_pos hhead]
      have hL : cs.length = bs.length := by rw [hcs]; simp
      rw [hfrom, hval, hL, two_pow_8mul]
      ring
  · subst hzero
    rfl
  · rw [if_neg (by omega), if_pos hpos]
    have hval : (fromBytes (natBytes i.toNat) : Int) = i := by
      rw [fromBytes_natBytes, Int.toNat_of_nonneg (by omega)]
    set bs := natBytes i.toNat with hbs
    by_cases hb : 128 ≤ bs.headD 0
    · rw [if_pos hb, derIntValue]
      have hhead : ¬ 128 ≤ ((0 : Nat) :: bs).headD 0 := by simp
      rw [if_neg hhead, fromBytes_cons]
      simpa using hval
    · rw [if_neg hb, derIntValue, if_neg hb]
      exact hval

theorem parseBigIntContent_encInt (i : Int) : parseBigIntContent (encInt i) = .ok i := by
  rw [parseBigIntContent, if_pos (checkIntegerOk_encInt i), derIntValue_encInt]

theorem parseBigIntTLV_enc (i : Int) (s : List Nat) (h : (encInt i).length < 2 ^ 23) :
    parseBigIntTLV (encTLV 2 (encInt i) ++ s) = .ok (i, s) := by
  rw [parseBigIntTLV, expectTlv, parseTLV_enc 2 (encInt i) s (by norm_num) h]
  norm_num [parseBigIntContent_encInt]

theorem encInt_length_le (i : Int) (k : Nat) (h : i.natAbs < 256 ^ k) :
    (encInt i).length ≤ k + 1 := by
  rw [encInt]
  rcases lt_trichotomy i 0 with hneg | hzero | hpos
  · rw [if_neg (by omega), if_neg (by omega)]
    have hm : (-i - 1).toNat < 256 ^ k := by
      have : (-i - 1).toNat ≤ i.natAbs := by omega
      omega
    have hlen : (natBytes (-i - 1).toNat).length ≤ k := natBytes_length_le k _ hm
    dsimp only
    by_cases hc : ((natBytes (-i - 1).toNat).map fun b => 255 - b) = [] ∨
        (((natBytes (-i - 1).toNat).map fun b => 255 - b)).headD 0 < 128
    · rw [if_pos hc]
      simp only [List.length_cons, List.length_map]
      omega
    · rw [if_neg hc]
      simp only [List.length_map]
      omega
  · subst hzero
    simp
  · rw [if_neg (by omega), if_pos hpos]
    have hm : i.toNat < 256 ^ k := by omega
    have hlen : (natBytes i.toNat).length ≤ k := natBytes_length_le k _ hm
    dsimp only
    by_cases hb : 128 ≤ (natBytes i.toNat).headD 0
    · rw [if_pos hb]
      simp only [List.length_cons]
      omega
    · rw [if_neg hb]
      omega

/-! ## Helper lemmas: the marshalled request parses back -/

theorem encTLV_length_le (tag : Nat) (c : List Nat) (h : c.length < 2 ^ 23) :
    (encTLV tag c).length ≤ c.length + 5 := by
  rw [encTLV_length]
  have := encLen_length_le c.length h
  omega

theorem parseTLV_nullbytes : parseTLV [5, 0] = .ok ⟨⟨0, false, 5⟩, [], [5, 0], []⟩ := by rfl

theorem parseOIDTLV_enc (oid content : List Nat)
    (hpc : parseOIDContent content = .ok oid) (hlen : content.length < 2 ^ 23)
    (s : List Nat) :
    parseOIDTLV (encTLV 6 content ++ s) = .ok (oid, s) := by
  rw [parseOIDTLV, expectTlv, parseTLV_enc 6 content s (by norm_num) hlen]
  norm_num [hpc]

theorem parseAlgorithmIdentifier_encNull (oid content : List Nat)
    (henc : encOIDContent oid = content)
    (hpc : parseOIDContent content = .ok oid) (hlen : content.length < 2 ^ 15)
    (s : List Nat) :
    parseAlgorithmIdentifier
        (encAlgorithmIdentifier { Algorithm := oid, Parameters := { Tag := 5 } } ++ s) =
      .ok ({ Algorithm := oid, Parameters := parsedNullParameters }, s) := by
  have hshape : encAlgorithmIdentifier { Algorithm := oid, Parameters := { Tag := 5 } } =
      encTLV 48 (encTLV 6 content ++ [5, 0]) := by
    rw [encAlgorithmIdentifier]
    norm_num [henc]
    rfl
  have hclen : (encTLV 6 content ++ [5, 0]).length < 2 ^ 23 := by
    have h1 := encTLV_length_le 6 content (by omega)
    simp only [List.length_append]
    norm_num at hlen ⊢
    omega
  rw [hshape, parseAlgorithmIdentifier, expectSeq_enc _ s hclen]
  have hoid : parseOIDTLV (encTLV 6 content ++ [5, 0]) = .ok (oid, [5, 0]) :=
    parseOIDTLV_enc oid content hpc (by omega) [5, 0]
  simp only [parseAlgIdContent, hoid, parseTLV_nullbytes]
  rfl

theorem encAlgNull_shape (oid content : List Nat) (henc : encOIDContent oid = content) :
    encAlgorithmIdentifier { Algorithm := oid, Parameters := { Tag := 5 } } =
      encTLV 48 (encTLV 6 content ++ [5, 0]) := by
  rw [encAlgorithmIdentifier]
  norm_num [henc]
  rfl

theorem certIDInner_length (oid content nh kh : List Nat) (sn : Int)
    (henc : encOIDContent oid = content) (holen : content.length < 2 ^ 15)
    (hn : nh.length ≤ 2 ^ 16 + 8) (hk : kh.length ≤ 2 ^ 16 + 8)
    (hs : (encInt sn).length ≤ 2 ^ 16 + 8) :
    (encAlgorithmIdentifier { Algorithm := oid, Parameters := { Tag := 5 } } ++
      encTLV 4 nh ++ encTLV 4 kh ++ encTLV 2 (encInt sn)).length ≤ 2 ^ 18 := by
  have h1 := encTLV_length_le 6 content (by norm_num at holen ⊢; omega)
  have h2 : (encTLV 6 content ++ [5, 0]).length < 2 ^ 23 := by
    simp only [List.length_append]
    norm_num at holen ⊢
    omega
  have h3 := encTLV_length_le 48 (encTLV 6 content ++ [5, 0]) h2
  have h4 := encTLV_length_le 4 nh (by norm_num at hn ⊢; omega)
  have h5 := encTLV_length_le 4 kh (by norm_num at hk ⊢; omega)
  have h6 := encTLV_length_le 2 (encInt sn) (by norm_num at hs ⊢; omega)
  rw [encAlgNull_shape oid content henc]
  simp only [List.length_append] at h3 h2 ⊢
  norm_num at hn hk hs holen h1 h3 h4 h5 h6 ⊢
  omega

theorem parseCertIDStruct_enc (oid content nh kh : List Nat) (sn : Int)
    (henc : encOIDContent oid = content)
    (hpc : parseOIDContent content = .ok oid) (holen : content.length < 2 ^ 15)
    (hn : nh.length ≤ 2 ^ 16 + 8) (hk : kh.length ≤ 2 ^ 16 + 8)
    (hs : (encInt sn).length ≤ 2 ^ 16 + 8) (s : List Nat) :
    parseCertIDStruct (encCertID
        { HashAlgorithm := { Algorithm := oid, Parameters := { Tag := 5 } },
          NameHash := nh, IssuerKeyHash := kh, SerialNumber := sn } ++ s) =
      .ok ({ HashAlgorithm := { Algorithm := oid, Parameters := parsedNullParameters },
             NameHash := nh, IssuerKeyHash := kh, SerialNumber := sn }, s) := by
  have hinnerlen := certIDInner_length oid content nh kh sn henc holen hn hk hs
  have hassoc :
      encAlgorithmIdentifier { Algorithm := oid, Parameters := { Tag := 5 } } ++
        encTLV 4 nh ++ encTLV 4 kh ++ encTLV 2 (encInt sn) =
      encAlgorithmIdentifier { Algorithm := oid, Parameters := { Tag := 5 } } ++
        (encTLV 4 nh ++ (encTLV 4 kh ++ encTLV 2 (encInt sn))) := by
    simp
  have e1 := parseAlgorithmIdentifier_encNull oid content henc hpc holen
    (encTLV 4 nh ++ (encTLV 4 kh ++ encTLV 2 (encInt sn)))
  have e2 := parseOctetStringTLV_enc nh (encTLV 4 kh ++ encTLV 2 (encInt sn))
    (by norm_num at hn ⊢; omega)
  have e3 := parseOctetStringTLV_enc kh (encTLV 2 (encInt sn)) (by norm_num at hk ⊢; omega)
  have e4 : parseBigIntTLV (encTLV 2 (encInt sn)) = .ok (sn, []) := by
    have := parseBigIntTLV_enc sn [] (by norm_num at hs ⊢; omega)
    simpa using this
  have hexp := expectSeq_enc
    (encAlgorithmIdentifier { Algorithm := oid, Parameters := { Tag := 5 } } ++
      (encTLV 4 nh ++ (encTLV 4 kh ++ encTLV 2 (encInt sn)))) s
    (by rw [← hassoc]; norm_num at hinnerlen ⊢; omega)
  simp only [encCertID, parseCertIDStruct, List.append_assoc, hexp, e1, e2, e3, e4]

theorem encCertID_length (oid content nh kh : List Nat) (sn : Int)
    (henc : encOIDContent oid = content) (holen : content.length < 2 ^ 15)
    (hn : nh.length ≤ 2 ^ 16 + 8) (hk : kh.length ≤ 2 ^ 16 + 8)
    (hs : (encInt sn).length ≤ 2 ^ 16 + 8) :
    (encCertID
      { HashAlgorithm := { Algorithm := oid, Parameters := { Tag := 5 } },
        NameHash := nh, IssuerKeyHash := kh, SerialNumber := sn }).length ≤ 2 ^ 18 + 5 := by
  have hinnerlen := certIDInner_length oid content nh kh sn henc holen hn hk hs
  have h2 : (encAlgorithmIdentifier { Algorithm := oid, Parameters := { Tag := 5 } } ++
      encTLV 4 nh ++ encTLV 4 kh ++ encTLV 2 (encInt sn)).length < 2 ^ 23 := by
    norm_num at hinnerlen ⊢
    omega
  have h3 := encTLV_length_le 48 _ h2
  simp only [encCertID]
  omega

theorem parseRequestStruct_enc (oid content nh kh : List Nat) (sn : Int)
    (henc : encOIDContent oid = content)
    (hpc : parseOIDContent content = .ok oid) (holen : content.length < 2 ^ 15)
    (hn : nh.length ≤ 2 ^ 16 + 8) (hk : kh.length ≤ 2 ^ 16 + 8)
    (hs : (encInt sn).length ≤ 2 ^ 16 + 8) (s : List Nat) :
    parseRequestStruct (encRequest
        { Cert := { HashAlgorithm := { Algorithm := oid, Parameters := { Tag := 5 } },
                    NameHash := nh, IssuerKeyHash := kh, SerialNumber := sn } } ++ s) =
      .ok ({ Cert := { HashAlgorithm := { Algorithm := oid, Parameters := parsedNullParameters },
                       NameHash := nh, IssuerKeyHash := kh, SerialNumber := sn } }, s) := by
  have hcertlen := encCertID_length oid content nh kh sn henc holen hn hk hs
  have hcert : parseCertIDStruct (encCertID
      { HashAlgorithm := { Algorithm := oid, Parameters := { Tag := 5 } },
        NameHash := nh, IssuerKeyHash := kh, SerialNumber := sn }) =
      .ok ({ HashAlgorithm := { Algorithm := oid, Parameters := parsedNullParameters },
             NameHash := nh, IssuerKeyHash := kh, SerialNumber := sn }, []) := by
    have := parseCertIDStruct_enc oid content nh kh sn henc hpc holen hn hk hs []
    simpa using this
  have hexp := expectSeq_enc
    (encCertID
      { HashAlgorithm := { Algorithm := oid, Parameters := { Tag := 5 } },
        NameHash := nh, IssuerKeyHash := kh, SerialNumber := sn }) s
    (by norm_num at hcertlen ⊢; omega)
  simp only [encRequest, parseRequestStruct, hexp, hcert]

theorem parseVersionField_skip (c s : List Nat) (hc : c ≠ []) (hlen : c.length < 2 ^ 23) :
    parseVersionField (encTLV 48 c ++ s) = .ok (0, encTLV 48 c ++ s) := by
  have hshape : encTLV 48 c ++ s = 48 :: (encLen c.length ++ (c ++ s)) := by
    simp [encTLV]
  have ht := parseTag_cons 48 (encLen c.length ++ (c ++ s)) (by norm_num)
  have hl := parseLen_encLen c.length (c ++ s) hlen
  have hne : ¬ (c ++ s) = [] := by
    intro h
    exact hc (List.append_eq_nil.mp h).1
  rw [hshape]
  simp only [parseVersionField, ht, hl]
  rw [if_neg hne, if_neg (by norm_num)]

theorem parseRequestorNameField_skip (c s : List Nat) (hc : c ≠ [])
    (hlen : c.length < 2 ^ 23) :
    parseRequestorNameField (encTLV 48 c ++ s) = .ok ([], encTLV 48 c ++ s) := by
  have hshape : encTLV 48 c ++ s = 48 :: (encLen c.length ++ (c ++ s)) := by
    simp [encTLV]
  have ht := parseTag_cons 48 (encLen c.length ++ (c ++ s)) (by norm_num)
  have hl := parseLen_encLen c.length (c ++ s) hlen
  have hne : ¬ (c ++ s) = [] := by
    intro h
    exact hc (List.append_eq_nil.mp h).1
  rw [hshape]
  simp only [parseRequestorNameField, ht, hl]
  rw [if_neg hne, if_neg (by norm_num)]

theorem encTLV_ne_nil (tag : Nat) (c : List Nat) : encTLV tag c ≠ [] := by
  simp [encTLV]

theorem parseRequestListLoop_cons (f : Nat) (b : Nat) (t : List Nat) (r' : request)
    (h : parseRequestStruct (b :: t) = .ok (r', [])) :
    parseRequestListLoop (f + 1) (b :: t) = .ok [r'] := by
  simp only [parseRequestListLoop, h]

theorem parseRequestListLoop_single (r r' : request)
    (hstruct : parseRequestStruct (encRequest r) = .ok (r', [])) :
    parseRequestListLoop (encRequest r).length (encRequest r) = .ok [r'] :=
  parseRequestListLoop_cons (encLen (encCertID r.Cert).length ++ encCertID r.Cert).length
    48 (encLen (encCertID r.Cert).length ++ encCertID r.Cert) r' hstruct

theorem parseTBSRequest_marshal (r r' : request) (s : List Nat)
    (hstruct : parseRequestStruct (encRequest r) = .ok (r', []))
    (hrlen : (encRequest r).length < 2 ^ 22) :
    parseTBSRequestStruct
        (encTBSRequest
          { Version := 0, RequestorName := [], RequestList := [r],
            RequestExtensions := [] } ++ s) =
      .ok ({ Version := 0, RequestorName := [], RequestList := [r'],
             RequestExtensions := [] }, s) := by
  have hshape : encTBSRequest
      { Version := 0, RequestorName := [], RequestList := [r],
        RequestExtensions := [] } = encTLV 48 (encTLV 48 (encRequest r)) := by
    simp [encTBSRequest]
  have hrlen' : (encRequest r).length < 2 ^ 23 := by
    norm_num at hrlen ⊢
    omega
  have hlistlen : (encTLV 48 (encRequest r)).length < 2 ^ 23 := by
    have := encTLV_length_le 48 (encRequest r) hrlen'
    norm_num at this hrlen ⊢
    omega
  have hexp := expectSeq_enc (encTLV 48 (encRequest r)) s hlistlen
  have hver := parseVersionField_skip (encRequest r) ([] : List Nat)
    (encTLV_ne_nil 48 (encCertID r.Cert)) hrlen'
  have hname := parseRequestorNameField_skip (encRequest r) ([] : List Nat)
    (encTLV_ne_nil 48 (encCertID r.Cert)) hrlen'
  have hexp2 : expectTlv 0 true 16 (encTLV 48 (encRequest r)) =
      .ok ⟨⟨0, true, 16⟩, encRequest r, encTLV 48 (encRequest r), []⟩ := by
    have := expectSeq_enc (encRequest r) [] hrlen'
    simpa using this
  have hloop := parseRequestListLoop_single r r' hstruct
  have hver' : parseVersionField (encTLV 48 (encRequest r)) =
      .ok (0, encTLV 48 (encRequest r)) := by simpa using hver
  have hname' : parseRequestorNameField (encTLV 48 (encRequest r)) =
      .ok ([], encTLV 48 (encRequest r)) := by simpa using hname
  have hext : parseRequestExtensionsField ([] : List Nat) = .ok ([], []) := rfl
  simp only [hshape, parseTBSRequestStruct, hexp, hver', hname', hexp2, hloop, hext]

theorem unmarshalOCSPRequest_marshal (r r' : request) (s : List Nat)
    (hstruct : parseRequestStruct (encRequest r) = .ok (r', []))
    (hrlen : (encRequest r).length < 2 ^ 22) :
    unmarshalOCSPRequest
        (encOCSPRequest
          { TBSRequest :=
            { Version := 0, RequestorName := [], RequestList := [r],
              RequestExtensions := [] } } ++ s) =
      .ok ({ TBSRequest :=
              { Version := 0, RequestorName := [], RequestList := [r'],
                RequestExtensions := [] } }, s) := by
  have htbs : parseTBSRequestStruct
      (encTBSRequest
        { Version := 0, RequestorName := [], RequestList := [r],
          RequestExtensions := [] }) =
      .ok ({ Version := 0, RequestorName := [], RequestList := [r'],
             RequestExtensions := [] }, []) := by
    have := parseTBSRequest_marshal r r' [] hstruct hrlen
    simpa using this
  have htbslen : (encTBSRequest
      { Version := 0, RequestorName := [], RequestList := [r],
        RequestExtensions := [] }).length < 2 ^ 23 := by
    have hshape : encTBSRequest
        { Version := 0, RequestorName := [], RequestList := [r],
          RequestExtensions := [] } = encTLV 48 (encTLV 48 (encRequest r)) := by
      simp [encTBSRequest]
    rw [hshape]
    have h1 : (encRequest r).length < 2 ^ 23 := by norm_num at hrlen ⊢; omega
    have h2 := encTLV_length_le 48 (encRequest r) h1
    have h3 : (encTLV 48 (encRequest r)).length < 2 ^ 23 := by
      norm_num at hrlen h2 ⊢
      omega
    have h4 := encTLV_length_le 48 (encTLV 48 (encRequest r)) h3
    norm_num at hrlen h2 h3 h4 ⊢
    omega
  have hexp := expectSeq_enc (encTBSRequest
    { Version := 0, RequestorName := [], RequestList := [r],
      RequestExtensions := [] }) s htbslen
  simp only [encOCSPRequest, unmarshalOCSPRequest, hexp, htbs]

theorem marshal_parse_core (req : Request) (oid content : List Nat)
    (hoid : getOIDFromHashAlgorithm req.HashAlgorithm = some oid)
    (hrev : getHashAlgorithmFromOID oid = req.HashAlgorithm)
    (hne : req.HashAlgorithm ≠ cryptoHash0)
    (henc : encOIDContent oid = content)
    (hpc : parseOIDContent content = .ok oid)
    (holen : content.length < 2 ^ 15)
    (hn : req.IssuerNameHash.length ≤ 2 ^ 16)
    (hk : req.IssuerKeyHash.length ≤ 2 ^ 16)
    (hs : (encInt req.SerialNumber).length ≤ 2 ^ 16) :
    ∃ der, req.Marshal = .ok der ∧
      ParseRequest der = .ok
        { HashAlgorithm := req.HashAlgorithm,
          IssuerNameHash := req.IssuerNameHash, IssuerKeyHash := req.IssuerKeyHash,
          SerialNumber := req.SerialNumber, Extensions := [] } := by
  have hstruct : parseRequestStruct (encRequest
      { Cert := { HashAlgorithm := { Algorithm := oid, Parameters := { Tag := 5 } },
                  NameHash := req.IssuerNameHash, IssuerKeyHash := req.IssuerKeyHash,
                  SerialNumber := req.SerialNumber } }) =
      .ok ({ Cert := { HashAlgorithm := { Algorithm := oid, Parameters := parsedNullParameters },
                       NameHash := req.IssuerNameHash, IssuerKeyHash := req.IssuerKeyHash,
                       SerialNumber := req.SerialNumber } }, []) := by
    have := parseRequestStruct_enc oid content req.IssuerNameHash req.IssuerKeyHash
      req.SerialNumber henc hpc holen (by omega) (by omega) (by omega) []
    simpa using this
  have hclen := encCertID_length oid content req.IssuerNameHash req.IssuerKeyHash
    req.SerialNumber henc holen (by omega) (by omega) (by omega)
  have hrlen : (encRequest
      { Cert := { HashAlgorithm := { Algorithm := oid, Parameters := { Tag := 5 } },
                  NameHash := req.IssuerNameHash, IssuerKeyHash := req.IssuerKeyHash,
                  SerialNumber := req.SerialNumber } }).length < 2 ^ 22 := by
    rw [encRequest]
    have h1 : (encCertID
        { HashAlgorithm := { Algorithm := oid, Parameters := { Tag := 5 } },
          NameHash := req.IssuerNameHash, IssuerKeyHash := req.IssuerKeyHash,
          SerialNumber := req.SerialNumber }).length < 2 ^ 23 := by
      norm_num at hclen ⊢
      omega
    have h2 := encTLV_length_le 48 _ h1
    norm_num at hclen h2 ⊢
    omega
  have hunm : unmarshalOCSPRequest
      (encOCSPRequest
        { TBSRequest :=
          { Version := 0, RequestorName := [],
            RequestList := [{ Cert :=
              { HashAlgorithm := { Algorithm := oid, Parameters := { Tag := 5 } },
                NameHash := req.IssuerNameHash, IssuerKeyHash := req.IssuerKeyHash,
                SerialNumber := req.SerialNumber } }],
            RequestExtensions := [] } }) =
      .ok ({ TBSRequest :=
              { Version := 0, RequestorName := [],
                RequestList := [{ Cert :=
                  { HashAlgorithm := { Algorithm := oid, Parameters := parsedNullParameters },
                    NameHash := req.IssuerNameHash, IssuerKeyHash := req.IssuerKeyHash,
                    SerialNumber := req.SerialNumber } }],
                RequestExtensions := [] } }, []) := by
    have := unmarshalOCSPRequest_marshal _ _ [] hstruct hrlen
    simpa using this
  refine ⟨_, by rw [Request.Marshal, hoid], ?_⟩
  simp only [ParseRequest, hunm]
  norm_num [hrev, hne]

/-! ## Claim C2 -/

/-- C2: for every `Request` whose `HashAlgorithm` is one of SHA-1, SHA-256,
SHA-384 or SHA-512 (and whose hashes and serial number are of sane size, so
that no DER length overflows the asn1 length cap), `Request.Marshal`
succeeds, `ParseRequest` on the marshalled DER succeeds, and the
`HashAlgorithm`, `IssuerNameHash`, `IssuerKeyHash` and `SerialNumber` fields
of the reparsed request equal the original four fields. -/
theorem c2_marshal_parseRequest_roundtrip (req : Request)
    (hhash : req.HashAlgorithm = cryptoSHA1 ∨ req.HashAlgorithm = cryptoSHA256 ∨
      req.HashAlgorithm = cryptoSHA384 ∨ req.HashAlgorithm = cryptoSHA512)
    (hn : req.IssuerNameHash.length ≤ 2 ^ 16)
    (hk : req.IssuerKeyHash.length ≤ 2 ^ 16)
    (hs : req.SerialNumber.natAbs < 256 ^ 65535) :
    ∃ der r, req.Marshal = .ok der ∧ ParseRequest der = .ok r ∧
      r.HashAlgorithm = req.HashAlgorithm ∧ r.IssuerNameHash = req.IssuerNameHash ∧
      r.IssuerKeyHash = req.IssuerKeyHash ∧ r.SerialNumber = req.SerialNumber := by
  have hs' : (encInt req.SerialNumber).length ≤ 2 ^ 16 := by
    have := encInt_length_le req.SerialNumber 65535 hs
    norm_num at this ⊢
    omega
  rcases hhash with h | h | h | h
  · obtain ⟨der, hm, hp⟩ := marshal_parse_core req oidSHA1 [43, 14, 3, 2, 26]
      (by rw [h]; rfl) (by rw [h]; rfl) (by rw [h]; decide) (by rfl) (by decide)
      (by decide) hn hk hs'
    exact ⟨der, _, hm, hp, rfl, rfl, rfl, rfl⟩
  · obtain ⟨der, hm, hp⟩ := marshal_parse_core req oidSHA256
      [96, 134, 72, 1, 101, 3, 4, 2, 1]
      (by rw [h]; rfl) (by rw [h]; rfl) (by rw [h]; decide) (by rfl) (by decide)
      (by decide) hn hk hs'
    exact ⟨der, _, hm, hp, rfl, rfl, rfl, rfl⟩
  · obtain ⟨der, hm, hp⟩ := marshal_parse_core req oidSHA384
      [96, 134, 72, 1, 101, 3, 4, 2, 2]
      (by rw [h]; rfl) (by rw [h]; rfl) (by rw [h]; decide) (by rfl) (by decide)
      (by decide) hn hk hs'
    exact ⟨der, _, hm, hp, rfl, rfl, rfl, rfl⟩
  · obtain ⟨der, hm, hp⟩ := marshal_parse_core req oidSHA512
      [96, 134, 72, 1, 101, 3, 4, 2, 3]
      (by rw [h]; rfl) (by rw [h]; rfl) (by rw [h]; decide) (by rfl) (by decide)
      (by decide) hn hk hs'
    exact ⟨der, _, hm, hp, rfl, rfl, rfl, rfl⟩

/-- Witness for C2 at the golden request of the specification. -/
theorem c2_marshal_parseRequest_roundtrip_witness :
    ∃ der r, goldenRequest.Marshal = .ok der ∧ ParseRequest der = .ok r ∧
      r.HashAlgorithm = goldenRequest.HashAlgorithm ∧
      r.IssuerNameHash = goldenRequest.IssuerNameHash ∧
      r.IssuerKeyHash = goldenRequest.IssuerKeyHash ∧
      r.SerialNumber = goldenRequest.SerialNumber :=
  c2_marshal_parseRequest_roundtrip goldenRequest (Or.inl rfl) (by decide) (by decide)
    (by
      show (1 : Int).natAbs < 256 ^ 65535
      exact Nat.one_lt_pow (by norm_num) (by norm_num))

/-! ## Claim C10 -/

/-- C10: `Request.Marshal` ignores the `Extensions` field: marshalling a
request with any extensions produces the same DER as marshalling it with
none, and reparsing the marshalled bytes always yields a request whose
`Extensions` list is empty, the other four fields intact. -/
theorem c10_marshal_ignores_extensions (req : Request) (exts : List Extension)
    (hhash : req.HashAlgorithm = cryptoSHA1 ∨ req.HashAlgorithm = cryptoSHA256 ∨
      req.HashAlgorithm = cryptoSHA384 ∨ req.HashAlgorithm = cryptoSHA512)
    (hn : req.IssuerNameHash.length ≤ 2 ^ 16)
    (hk : req.IssuerKeyHash.length ≤ 2 ^ 16)
    (hs : req.SerialNumber.natAbs < 256 ^ 65535) :
    Request.Marshal { req with Extensions := exts } = req.Marshal ∧
      ∀ der, req.Marshal = .ok der →
        ParseRequest der = .ok { req with Extensions := [] } := by
  constructor
  · rfl
  · intro der hder
    have hs' : (encInt req.SerialNumber).length ≤ 2 ^ 16 := by
      have := encInt_length_le req.SerialNumber 65535 hs
      norm_num at this ⊢
      omega
    have hcore : ∃ d, req.Marshal = .ok d ∧ ParseRequest d = .ok
        { HashAlgorithm := req.HashAlgorithm,
          IssuerNameHash := req.IssuerNameHash, IssuerKeyHash := req.IssuerKeyHash,
          SerialNumber := req.SerialNumber, Extensions := [] } := by
      rcases hhash with h | h | h | h
      · exact marshal_parse_core req oidSHA1 [43, 14, 3, 2, 26]
          (by rw [h]; rfl) (by rw [h]; rfl) (by rw [h]; decide) (by rfl) (by decide)
          (by decide) hn hk hs'
      · exact marshal_parse_core req oidSHA256 [96, 134, 72, 1, 101, 3, 4, 2, 1]
          (by rw [h]; rfl) (by rw [h]; rfl) (by rw [h]; decide) (by rfl) (by decide)
          (by decide) hn hk hs'
      · exact marshal_parse_core req oidSHA384 [96, 134, 72, 1, 101, 3, 4, 2, 2]
          (by rw [h]; rfl) (by rw [h]; rfl) (by rw [h]; decide) (by rfl) (by decide)
          (by decide) hn hk hs'
      · exact marshal_parse_core req oidSHA512 [96, 134, 72, 1, 101, 3, 4, 2, 3]
          (by rw [h]; rfl) (by rw [h]; rfl) (by rw [h]; decide) (by rfl) (by decide)
          (by decide) hn hk hs'
    obtain ⟨d, hm, hp⟩ := hcore
    rw [hder] at hm
    injection hm with hd
    subst hd
    exact hp

/-- Witness for C10: the golden request with a nonempty extension list. -/
theorem c10_marshal_ignores_extensions_witness :
    Request.Marshal { goldenRequest with
        Extensions := [{ Id := [1, 2], Critical := true, Value := [1] }] } =
      goldenRequest.Marshal ∧
    ∀ der, goldenRequest.Marshal = .ok der →
      ParseRequest der = .ok { goldenRequest with Extensions := [] } :=
  c10_marshal_ignores_extensions goldenRequest
    [{ Id := [1, 2], Critical := true, Value := [1] }]
    (Or.inl rfl) (by decide) (by decide)
    (by
      show (1 : Int).natAbs < 256 ^ 65535
      exact Nat.one_lt_pow (by norm_num) (by norm_num))

/-! ## Claim C8 -/

/-- C8: evaluation of `ParseRequest` on the four inputs of the claim.  The
first three rejections hold: trailing data after the request structure,
a request list with zero entries, and an unrecognized hash OID each yield
the documented `ParseError`.  The fourth conjunct exhibits the divergence:
a request carrying an RFC 6960 `optionalSignature` is ACCEPTED, with the
signature silently ignored, because the Go `ocspRequest` struct declares no
signature field and `encoding/asn1` allows extra bytes at the end of a
SEQUENCE, contradicting the package comment that a signed request results in
a `ParseError`. -/
theorem c8_parseRequest_rejections_and_signed_acceptance :
    ParseRequest (goldenRequestBytes ++ [0]) =
      .error (.parseError ("trailing data in OCSP request")) ∧
    ParseRequest emptyListRequestBytes =
      .error (.parseError ("OCSP request contains no request body")) ∧
    ParseRequest md5RequestBytes =
      .error (.parseError ("OCSP request uses unknown hash function")) ∧
    ParseRequest signedRequestBytes = .ok goldenRequest := by
  refine ⟨by decide, by decide, by decide, by decide⟩

/-! ## Claim C4 -/

theorem unmarshal_mkErrEnvelope (b : Nat) (hb : b < 128) :
    unmarshalResponseASN1 (mkErrEnvelope b) =
      .ok ({ Status := (b : Int), Response := {} }, []) := by
  have e0 : mkErrEnvelope b = encTLV 48 (encTLV 10 [b]) ++ [] := by
    simp [mkErrEnvelope, encTLV, encLen]
  have hexp := expectSeq_enc (encTLV 10 [b]) [] (by simp [encTLV, encLen])
  have henum : parseEnumeratedTLV (encTLV 10 [b]) = .ok ((b : Int), []) := by
    have htlv : parseTLV (encTLV 10 [b]) = .ok ⟨⟨0, false, 10⟩, [b], encTLV 10 [b], []⟩ := by
      have := parseTLV_enc 10 [b] [] (by norm_num) (by simp)
      simpa using this
    have hval : parseInt32Content [b] = .ok ((b : Int)) := by
      have hd : derIntValue [b] = (b : Int) := by
        rw [derIntValue]
        rw [if_neg (by simp; omega)]
        simp [fromBytes, fromBytesAux]
      have h64 : parseInt64Content [b] = .ok ((b : Int)) := by
        rw [parseInt64Content]
        rw [if_neg (by simp [checkIntegerOk])]
        rw [if_neg (by simp)]
        rw [hd]
      rw [parseInt32Content, h64]
      simp
      constructor <;> omega
    simp only [parseEnumeratedTLV, expectTlv, htlv]
    norm_num [hval]
  rw [e0, unmarshalResponseASN1]
  rw [hexp]
  simp only [henum]
  rfl

/-- C4: when the decoded top-level envelope's status is not success,
`ParseResponseForCert` returns a `ResponseError` carrying exactly that
status code — an error constructor distinct from `ParseError` — and in
particular each of the five canonical pre-serialized error responses
(`30 03 0A 01 01/02/03/05/06`) yields the `ResponseError` with status
`Malformed`, `InternalError`, `TryLater`, `SignatureRequired` and
`Unauthorized` respectively, for every choice of the external collaborators
and of the certificate and issuer arguments. -/
theorem c4_error_status_is_response_error (env : Externals)
    (cert issuer : Option Certificate) (b : Nat) (hb : b < 128) (hb0 : b ≠ 0) :
    ParseResponseForCert env (mkErrEnvelope b) cert issuer =
      .error (.responseError (b : Int)) ∧
    (∀ s, OcspError.responseError (b : Int) ≠ OcspError.parseError s) ∧
    ParseResponseForCert env MalformedRequestErrorResponse cert issuer =
      .error (.responseError Malformed) ∧
    ParseResponseForCert env InternalErrorErrorResponse cert issuer =
      .error (.responseError InternalError) ∧
    ParseResponseForCert env TryLaterErrorResponse cert issuer =
      .error (.responseError TryLater) ∧
    ParseResponseForCert env SigRequredErrorResponse cert issuer =
      .error (.responseError SignatureRequired) ∧
    ParseResponseForCert env UnauthorizedErrorResponse cert issuer =
      .error (.responseError Unauthorized) := by
  have hgen : ∀ c : Nat, c < 128 → c ≠ 0 →
      ParseResponseForCert env (mkErrEnvelope c) cert issuer =
        .error (.responseError (c : Int)) := by
    intro c hc hc0
    rw [ParseResponseForCert, unmarshal_mkErrEnvelope c hc]
    have hne : ((c : Int) ≠ Success) := by
      rw [Success]
      exact_mod_cast hc0
    simp only [if_neg (by simp : ¬ ([] : List Nat) ≠ []), if_pos hne]
  refine ⟨hgen b hb hb0, fun s => by simp, ?_, ?_, ?_, ?_, ?_⟩
  · exact hgen 1 (by norm_num) (by norm_num)
  · exact hgen 2 (by norm_num) (by norm_num)
  · exact hgen 3 (by norm_num) (by norm_num)
  · exact hgen 5 (by norm_num) (by norm_num)
  · exact hgen 6 (by norm_num) (by norm_num)

/-- Witness for C4 at status byte 1 with concrete externals. -/
theorem c4_error_status_is_response_error_witness :
    ParseResponseForCert okExternals (mkErrEnvelope 1) none none =
      .error (.responseError ((1 : Nat) : Int)) :=
  (c4_error_status_is_response_error okExternals none none 1 (by norm_num)
    (by norm_num)).1

/-! ## Helper lemmas: the `ParseResponseForCert` pipeline stages -/

theorem resolveResponderID_ok (raw : RawValue) (ret r : Response)
    (h : resolveResponderID raw ret = .ok r) :
    (raw.Tag = 1 ∧ r = { ret with RawResponderName := some raw.Bytes }) ∨
    (raw.Tag = 2 ∧ ∃ kh, unmarshalOctetString raw.Bytes = .ok (kh, []) ∧
      r = { ret with ResponderKeyHash := some kh }) := by
  rw [resolveResponderID.eq_def] at h
  split at h
  · rename_i htag
    split at h
    · exact absurd h (by simp)
    · split at h
      · exact absurd h (by simp)
      · left
        refine ⟨htag, ?_⟩
        injection h with h1
        exact h1.symm
  · rename_i htag
    split at h
    · exact absurd h (by simp)
    · rename_i kh rest hoct
      split at h
      · exact absurd h (by simp)
      · rename_i hrest
        right
        refine ⟨htag, kh, ?_, ?_⟩
        · rw [hoct]
          simp at hrest
          rw [hrest]
        · injection h with h1
          exact h1.symm
  · exact absurd h (by simp)

theorem checkCertificates_ok (env : Externals) (b : basicResponse)
    (issuer : Option Certificate) (ret r : Response)
    (h : checkCertificates env b issuer ret = .ok r) :
    r = ret ∨ ∃ c, r = { ret with Certificate := some c } := by
  rw [checkCertificates.eq_def] at h
  split at h
  · split at h
    · exact absurd h (by simp)
    · rename_i cert0 hpc
      simp only [] at h
      split at h
      · exact absurd h (by simp)
      · split at h
        · split at h
          · exact absurd h (by simp)
          · right
            exact ⟨cert0, by injection h with h1; exact h1.symm⟩
        · right
          exact ⟨cert0, by injection h with h1; exact h1.symm⟩
  · split at h
    · split at h
      · exact absurd h (by simp)
      · left
        injection h with h1
        exact h1.symm
    · left
      injection h with h1
      exact h1.symm

theorem resolveIssuerHash_ok (s : singleResponse) (ret r : Response)
    (h : resolveIssuerHash s ret = .ok r) :
    ∃ h0, h0 ≠ 0 ∧ r = { ret with IssuerHash := h0 } := by
  rw [resolveIssuerHash] at h
  cases hf : hashOIDs.find? (fun p => p.2 == s.CertID.HashAlgorithm.Algorithm) with
  | some p =>
    rw [hf] at h
    simp only at h
    split at h
    · exact absurd h (by simp)
    · rename_i hne
      injection h with h1
      exact ⟨p.1, by simpa using hne, h1.symm⟩
  | none =>
    rw [hf] at h
    simp only at h
    split at h
    · exact absurd h (by simp)
    · rename_i hne
      injection h with h1
      refine ⟨ret.IssuerHash, by simpa using hne, ?_⟩
      rw [← h1]

theorem classifyStatus_good (s : singleResponse) (ret : Response) (h : s.Good = true) :
    classifyStatus s ret = { ret with Status := Good } := by
  rw [classifyStatus, if_pos (by simp [h] : s.Good = true)]

theorem classifyStatus_unknown (s : singleResponse) (ret : Response)
    (hg : s.Good = false) (hu : s.Unknown = true) :
    classifyStatus s ret = { ret with Status := Unknown } := by
  rw [classifyStatus, if_neg (by simp [hg]), if_pos (by simp [hu] : s.Unknown = true)]

theorem classifyStatus_revoked (s : singleResponse) (ret : Response)
    (hg : s.Good = false) (hu : s.Unknown = false) :
    classifyStatus s ret =
      { ret with Status := Revoked, RevokedAt := s.Revoked.RevocationTime,
                 RevocationReason := s.Revoked.Reason } := by
  rw [classifyStatus, if_neg (by simp [hg]), if_neg (by simp [hu])]

theorem parseBasic_ok_shape (env : Externals) (der : List Nat) (b : basicResponse)
    (cert issuer : Option Certificate) (r : Response)
    (h : parseBasicResponseForCert env der b cert issuer = .ok r) :
    ∃ s ret1 ret2 ret3,
      selectSingleResp cert b.TBSResponseData.Responses = .ok s ∧
      resolveResponderID b.TBSResponseData.RawResponderID (initResponse der b s) = .ok ret1 ∧
      checkCertificates env b issuer ret1 = .ok ret2 ∧
      s.SingleExtensions.any (fun e => e.Critical) = false ∧
      resolveIssuerHash s ret2 = .ok ret3 ∧
      r = classifyStatus s ret3 := by
  rw [parseBasicResponseForCert] at h
  split at h
  · exact absurd h (by simp)
  · rename_i s hsel
    split at h
    · exact absurd h (by simp)
    · rename_i ret1 hrid
      split at h
      · exact absurd h (by simp)
      · rename_i ret2 hcc
        split at h
        · exact absurd h (by simp)
        · rename_i hcrit
          split at h
          · exact absurd h (by simp)
          · rename_i ret3 hih
            refine ⟨s, ret1, ret2, ret3, hsel, hrid, hcc, by simpa using hcrit, hih, ?_⟩
            injection h with h1
            exact h1.symm

theorem pipeline_zero_revocation (env : Externals) (der : List Nat) (b : basicResponse)
    (issuer : Option Certificate) (s : singleResponse) (ret1 ret2 ret3 : Response)
    (hrid : resolveResponderID b.TBSResponseData.RawResponderID (initResponse der b s) =
      .ok ret1)
    (hcc : checkCertificates env b issuer ret1 = .ok ret2)
    (hih : resolveIssuerHash s ret2 = .ok ret3) :
    ret3.RevokedAt = 0 ∧ ret3.RevocationReason = 0 ∧
    ret3.SerialNumber = s.CertID.SerialNumber ∧ ret3.ThisUpdate = s.ThisUpdate ∧
    ret3.NextUpdate = s.NextUpdate ∧ ret3.Extensions = s.SingleExtensions := by
  obtain ⟨h0, _, h3⟩ := resolveIssuerHash_ok s ret2 ret3 hih
  subst h3
  rcases checkCertificates_ok env b issuer ret1 ret2 hcc with h2 | ⟨c, h2⟩ <;> subst h2 <;>
    rcases resolveResponderID_ok _ _ _ hrid with ⟨_, h1⟩ | ⟨_, kh, _, h1⟩ <;> subst h1 <;>
      simp [initResponse]

theorem classifyStatus_preserves (s : singleResponse) (ret : Response) :
    (classifyStatus s ret).SerialNumber = ret.SerialNumber ∧
    (classifyStatus s ret).ThisUpdate = ret.ThisUpdate ∧
    (classifyStatus s ret).NextUpdate = ret.NextUpdate ∧
    (classifyStatus s ret).Extensions = ret.Extensions ∧
    (classifyStatus s ret).RawResponderName = ret.RawResponderName ∧
    (classifyStatus s ret).ResponderKeyHash = ret.ResponderKeyHash := by
  rw [classifyStatus]
  split
  · simp
  · split <;> simp

/-! ## Claim C1 -/

/-- C1: for every successfully parsed single response, the status is
classified with the precedence Good over Unknown over Revoked: a set `Good`
flag yields status `Good` even if `Unknown` is nonconformantly also set;
otherwise a set `Unknown` flag yields `Unknown`; otherwise the status is
`Revoked` and `RevokedAt` / `RevocationReason` are copied from the nested
`revokedInfo`; in the `Good` and `Unknown` branches those two fields keep
their zero values. -/
theorem c1_status_classification (env : Externals) (der : List Nat) (b : basicResponse)
    (cert issuer : Option Certificate) (r : Response) (s : singleResponse)
    (hok : parseBasicResponseForCert env der b cert issuer = .ok r)
    (hsel : selectSingleResp cert b.TBSResponseData.Responses = .ok s) :
    (s.Good = true → r.Status = Good ∧ r.RevokedAt = 0 ∧ r.RevocationReason = 0) ∧
    (s.Good = false → s.Unknown = true →
      r.Status = Unknown ∧ r.RevokedAt = 0 ∧ r.RevocationReason = 0) ∧
    (s.Good = false → s.Unknown = false →
      r.Status = Revoked ∧ r.RevokedAt = s.Revoked.RevocationTime ∧
      r.RevocationReason = s.Revoked.Reason) := by
  obtain ⟨s', ret1, ret2, ret3, hsel', hrid, hcc, _, hih, hr⟩ :=
    parseBasic_ok_shape env der b cert issuer r hok
  rw [hsel] at hsel'
  injection hsel' with hss
  subst hss
  obtain ⟨hz1, hz2, _, _, _, _⟩ :=
    pipeline_zero_revocation env der b issuer s ret1 ret2 ret3 hrid hcc hih
  subst hr
  refine ⟨?_, ?_, ?_⟩
  · intro hg
    rw [classifyStatus_good s ret3 hg]
    simp [hz1, hz2]
  · intro hg hu
    rw [classifyStatus_unknown s ret3 hg hu]
    simp [hz1, hz2]
  · intro hg hu
    rw [classifyStatus_revoked s ret3 hg hu]
    simp

/-- Witness for C1 at a concrete good-status basic response. -/
theorem c1_status_classification_witness :
    (testSingleGood.Good = true → testParsedGood.Status = Good ∧
      testParsedGood.RevokedAt = 0 ∧ testParsedGood.RevocationReason = 0) ∧
    (testSingleGood.Good = false → testSingleGood.Unknown = true →
      testParsedGood.Status = Unknown ∧ testParsedGood.RevokedAt = 0 ∧
      testParsedGood.RevocationReason = 0) ∧
    (testSingleGood.Good = false → testSingleGood.Unknown = false →
      testParsedGood.Status = Revoked ∧
      testParsedGood.RevokedAt = testSingleGood.Revoked.RevocationTime ∧
      testParsedGood.RevocationReason = testSingleGood.Revoked.Reason) :=
  c1_status_classification okExternals [] testBasicGood none none testParsedGood
    testSingleGood (by decide) (by decide)

/-! ## Claim C3 -/

/-- C3: the entry-count policy of `ParseResponseForCert`: zero entries is an
error; several entries with no disambiguating certificate is an error; with
a certificate, the first entry whose serial number equals the certificate's
serial (compared by serial alone) is selected, and its per-entry fields
populate the result; with no matching serial the result is the
`no response matching` error. -/
theorem c3_entry_count_policy (env : Externals) (der : List Nat) (b : basicResponse)
    (cert issuer : Option Certificate) :
    (b.TBSResponseData.Responses = [] →
      parseBasicResponseForCert env der b cert issuer =
        .error (.parseError ("OCSP response contains bad number of responses"))) ∧
    (cert = none → 1 < b.TBSResponseData.Responses.length →
      parseBasicResponseForCert env der b cert issuer =
        .error (.parseError ("OCSP response contains bad number of responses"))) ∧
    (∀ c, cert = some c → b.TBSResponseData.Responses ≠ [] →
      b.TBSResponseData.Responses.find?
        (fun x => x.CertID.SerialNumber == c.SerialNumber) = none →
      parseBasicResponseForCert env der b cert issuer =
        .error (.parseError ("no response matching the supplied certificate"))) ∧
    (∀ c s, cert = some c →
      b.TBSResponseData.Responses.find?
        (fun x => x.CertID.SerialNumber == c.SerialNumber) = some s →
      selectSingleResp cert b.TBSResponseData.Responses = .ok s ∧
      ∀ r, parseBasicResponseForCert env der b cert issuer = .ok r →
        r.SerialNumber = s.CertID.SerialNumber ∧ r.ThisUpdate = s.ThisUpdate ∧
        r.NextUpdate = s.NextUpdate ∧ r.Extensions = s.SingleExtensions) := by
  refine ⟨?_, ?_, ?_, ?_⟩
  · intro h
    have hsel : selectSingleResp cert b.TBSResponseData.Responses =
        .error (.parseError ("OCSP response contains bad number of responses")) := by
      rw [selectSingleResp.eq_def, if_pos (by simp [h])]
    simp only [parseBasicResponseForCert, hsel]
  · intro hc hlen
    have hsel : selectSingleResp cert b.TBSResponseData.Responses =
        .error (.parseError ("OCSP response contains bad number of responses")) := by
      rw [selectSingleResp.eq_def, if_pos (by right; exact ⟨hc, hlen⟩)]
    simp only [parseBasicResponseForCert, hsel]
  · intro c hc hne hfind
    have hsel : selectSingleResp cert b.TBSResponseData.Responses =
        .error (.parseError ("no response matching the supplied certificate")) := by
      rw [selectSingleResp.eq_def, if_neg (by
        push_neg
        constructor
        · simpa using hne
        · intro hcn
          rw [hc] at hcn
          exact absurd hcn (by simp))]
      rw [hc]
      simp only [hfind]
    simp only [parseBasicResponseForCert, hsel]
  · intro c s hc hfind
    have hne : b.TBSResponseData.Responses ≠ [] := by
      intro h0
      rw [h0] at hfind
      simp at hfind
    have hsel : selectSingleResp cert b.TBSResponseData.Responses = .ok s := by
      rw [selectSingleResp.eq_def, if_neg (by
        push_neg
        constructor
        · simpa using hne
        · intro hcn
          rw [hc] at hcn
          exact absurd hcn (by simp))]
      rw [hc]
      simp only [hfind]
    refine ⟨hsel, ?_⟩
    intro r hok
    obtain ⟨s', ret1, ret2, ret3, hsel', hrid, hcc, _, hih, hr⟩ :=
      parseBasic_ok_shape env der b cert issuer r hok
    rw [hsel] at hsel'
    injection hsel' with hss
    subst hss
    obtain ⟨_, _, hf3, hf4, hf5, hf6⟩ :=
      pipeline_zero_revocation env der b issuer s ret1 ret2 ret3 hrid hcc hih
    obtain ⟨hp1, hp2, hp3, hp4, _, _⟩ := classifyStatus_preserves s ret3
    subst hr
    exact ⟨hp1.trans hf3, hp2.trans hf4, hp3.trans hf5, hp4.trans hf6⟩

/-- Witness for C3 at a concrete two-entry response, selecting by serial. -/
theorem c3_entry_count_policy_witness :
    selectSingleResp (some { SerialNumber := 2 })
        (testBasicTwo.TBSResponseData.Responses) = .ok testSingleRevoked ∧
    ∀ r, parseBasicResponseForCert okExternals [] testBasicTwo
        (some { SerialNumber := 2 }) none = .ok r →
      r.SerialNumber = testSingleRevoked.CertID.SerialNumber ∧
      r.ThisUpdate = testSingleRevoked.ThisUpdate ∧
      r.NextUpdate = testSingleRevoked.NextUpdate ∧
      r.Extensions = testSingleRevoked.SingleExtensions :=
  (c3_entry_count_policy okExternals [] testBasicTwo (some { SerialNumber := 2 }) none).2.2.2
    { SerialNumber := 2 } testSingleRevoked rfl (by decide)

/-! ## Claim C7 -/

/-- C7: the ResponderID CHOICE is resolved by the raw context tag alone:
tag 1 decodes the inner bytes as a distinguished name and stores the raw
bytes in `RawResponderName`; tag 2 decodes the inner octet string into
`ResponderKeyHash`; any other tag is the `invalid responder id tag` parse
error; and on every successful parse exactly one of the two fields is
populated. -/
theorem c7_responder_id_choice (raw : RawValue) (ret : Response)
    (env : Externals) (der : List Nat) (b : basicResponse)
    (cert issuer : Option Certificate) (r : Response) :
    (raw.Tag = 1 → ∀ x, parseRDNSequence raw.Bytes = .ok (x, []) →
      resolveResponderID raw ret = .ok { ret with RawResponderName := some raw.Bytes }) ∧
    (raw.Tag = 2 → ∀ kh, unmarshalOctetString raw.Bytes = .ok (kh, []) →
      resolveResponderID raw ret = .ok { ret with ResponderKeyHash := some kh }) ∧
    (raw.Tag ≠ 1 → raw.Tag ≠ 2 →
      resolveResponderID raw ret = .error (.parseError ("invalid responder id tag"))) ∧
    (parseBasicResponseForCert env der b cert issuer = .ok r →
      (r.RawResponderName ≠ none ∧ r.ResponderKeyHash = none) ∨
      (r.RawResponderName = none ∧ r.ResponderKeyHash ≠ none)) := by
  refine ⟨?_, ?_, ?_, ?_⟩
  · intro htag x hrdn
    simp [resolveResponderID.eq_def, htag, hrdn]
  · intro htag kh hoct
    simp [resolveResponderID.eq_def, htag, hoct]
  · intro h1 h2
    rw [resolveResponderID.eq_def]
    split
    · rename_i h; exact absurd h h1
    · rename_i h; exact absurd h h2
    · rfl
  · intro hok
    obtain ⟨s, ret1, ret2, ret3, _, hrid, hcc, _, hih, hr⟩ :=
      parseBasic_ok_shape env der b cert issuer r hok
    obtain ⟨_, _, _, _, hp5, hp6⟩ := classifyStatus_preserves s ret3
    obtain ⟨h0, _, h3⟩ := resolveIssuerHash_ok s ret2 ret3 hih
    subst hr h3
    rcases checkCertificates_ok env b issuer ret1 ret2 hcc with h2 | ⟨c, h2⟩ <;> subst h2 <;>
      rcases resolveResponderID_ok _ _ _ hrid with ⟨_, hA⟩ | ⟨_, kh, _, hA⟩ <;> subst hA <;>
        simp_all [initResponse]

/-- Witness for C7 at the key-hash responder id `testResponderKeyId` and at
a concrete successful parse. -/
theorem c7_responder_id_choice_witness :
    resolveResponderID testResponderKeyId {} =
      .ok { ({} : Response) with ResponderKeyHash := some [171] } ∧
    ((testParsedGood.RawResponderName ≠ none ∧ testParsedGood.ResponderKeyHash = none) ∨
      (testParsedGood.RawResponderName = none ∧ testParsedGood.ResponderKeyHash ≠ none)) := by
  have h := c7_responder_id_choice testResponderKeyId {} okExternals [] testBasicGood
    none none testParsedGood
  exact ⟨h.2.1 (by decide) [171] (by decide), h.2.2.2 (by decide)⟩

/-! ## Claim C5 -/

/-- C5: on an RSA-PSS algorithm identifier, `getSignatureAlgorithmFromAI`
returns one of the three PSS tags or `UnknownSignatureAlgorithm` — never an
error; a failure to decode the PSS parameters or the MGF1 hash yields
`UnknownSignatureAlgorithm`; and once both decode, the result is
`SHA-<n>-WithRSAPSS` exactly when the narrowed profile holds (both hash
parameter fields absent or NULL, MGF is MGF1, MGF1's inner hash equals the
outer hash, trailer field 1) and the hash is SHA-<n> with salt length equal
to its digest length (32, 48 or 64); finally the three built-in PSS
parameter templates resolve back to their matching tags. -/
theorem c5_pss_profile (ai : AlgorithmIdentifier)
    (h : ai.Algorithm = oidSignatureRSAPSS) :
    (getSignatureAlgorithmFromAI ai = UnknownSignatureAlgorithm ∨
     getSignatureAlgorithmFromAI ai = SHA256WithRSAPSS ∨
     getSignatureAlgorithmFromAI ai = SHA384WithRSAPSS ∨
     getSignatureAlgorithmFromAI ai = SHA512WithRSAPSS) ∧
    (∀ e, unmarshalPSSParameters ai.Parameters.FullBytes = .error e →
      getSignatureAlgorithmFromAI ai = UnknownSignatureAlgorithm) ∧
    (∀ params rest e, unmarshalPSSParameters ai.Parameters.FullBytes = .ok (params, rest) →
      unmarshalAlgorithmIdentifier params.MGF.Parameters.FullBytes = .error e →
      getSignatureAlgorithmFromAI ai = UnknownSignatureAlgorithm) ∧
    (∀ params rest mgf1HashFunc rest2,
      unmarshalPSSParameters ai.Parameters.FullBytes = .ok (params, rest) →
      unmarshalAlgorithmIdentifier params.MGF.Parameters.FullBytes =
        .ok (mgf1HashFunc, rest2) →
      ((getSignatureAlgorithmFromAI ai = SHA256WithRSAPSS ↔
        ((params.Hash.Parameters.FullBytes = [] ∨
            params.Hash.Parameters.FullBytes = NullBytes) ∧
          params.MGF.Algorithm = oidMGF1 ∧
          mgf1HashFunc.Algorithm = params.Hash.Algorithm ∧
          (mgf1HashFunc.Parameters.FullBytes = [] ∨
            mgf1HashFunc.Parameters.FullBytes = NullBytes) ∧
          params.TrailerField = 1) ∧
        params.Hash.Algorithm = oidSHA256 ∧ params.SaltLength = 32) ∧
       (getSignatureAlgorithmFromAI ai = SHA384WithRSAPSS ↔
        ((params.Hash.Parameters.FullBytes = [] ∨
            params.Hash.Parameters.FullBytes = NullBytes) ∧
          params.MGF.Algorithm = oidMGF1 ∧
          mgf1HashFunc.Algorithm = params.Hash.Algorithm ∧
          (mgf1HashFunc.Parameters.FullBytes = [] ∨
            mgf1HashFunc.Parameters.FullBytes = NullBytes) ∧
          params.TrailerField = 1) ∧
        params.Hash.Algorithm = oidSHA384 ∧ params.SaltLength = 48) ∧
       (getSignatureAlgorithmFromAI ai = SHA512WithRSAPSS ↔
        ((params.Hash.Parameters.FullBytes = [] ∨
            params.Hash.Parameters.FullBytes = NullBytes) ∧
          params.MGF.Algorithm = oidMGF1 ∧
          mgf1HashFunc.Algorithm = params.Hash.Algorithm ∧
          (mgf1HashFunc.Parameters.FullBytes = [] ∨
            mgf1HashFunc.Parameters.FullBytes = NullBytes) ∧
          params.TrailerField = 1) ∧
        params.Hash.Algorithm = oidSHA512 ∧ params.SaltLength = 64))) ∧
    getSignatureAlgorithmFromAI
      { Algorithm := oidSignatureRSAPSS, Parameters := pssParametersSHA256 } =
      SHA256WithRSAPSS ∧
    getSignatureAlgorithmFromAI
      { Algorithm := oidSignatureRSAPSS, Parameters := pssParametersSHA384 } =
      SHA384WithRSAPSS ∧
    getSignatureAlgorithmFromAI
      { Algorithm := oidSignatureRSAPSS, Parameters := pssParametersSHA512 } =
      SHA512WithRSAPSS := by
  have hne : ¬(ai.Algorithm ≠ oidSignatureRSAPSS) := by simp [h]
  refine ⟨?_, ?_, ?_, ?_, by decide, by decide, by decide⟩
  · rw [getSignatureAlgorithmFromAI, if_neg hne]
    split
    · exact Or.inl rfl
    · split
      · exact Or.inl rfl
      · split_ifs <;>
          first
            | exact Or.inl rfl
            | exact Or.inr (Or.inl rfl)
            | exact Or.inr (Or.inr (Or.inl rfl))
            | exact Or.inr (Or.inr (Or.inr rfl))
  · intro e hp
    rw [getSignatureAlgorithmFromAI, if_neg hne, hp]
  · intro params rest e hp hm
    rw [getSignatureAlgorithmFromAI, if_neg hne]
    simp only [hp, hm]
  · intro params rest mgf1HashFunc rest2 hp hm
    rw [getSignatureAlgorithmFromAI, if_neg hne]
    simp only [hp, hm]
    by_cases hC :
        (params.Hash.Parameters.FullBytes ≠ [] ∧
          params.Hash.Parameters.FullBytes ≠ NullBytes) ∨
        params.MGF.Algorithm ≠ oidMGF1 ∨
        mgf1HashFunc.Algorithm ≠ params.Hash.Algorithm ∨
        (mgf1HashFunc.Parameters.FullBytes ≠ [] ∧
          mgf1HashFunc.Parameters.FullBytes ≠ NullBytes) ∨
        params.TrailerField ≠ 1
    · rw [if_pos hC]
      refine ⟨iff_of_false (by decide) ?_, iff_of_false (by decide) ?_,
        iff_of_false (by decide) ?_⟩ <;>
        · rintro ⟨hP, -, -⟩
          exact absurd hC (by tauto)
    · rw [if_neg hC]
      push_neg at hC
      have hP : (params.Hash.Parameters.FullBytes = [] ∨
            params.Hash.Parameters.FullBytes = NullBytes) ∧
          params.MGF.Algorithm = oidMGF1 ∧
          mgf1HashFunc.Algorithm = params.Hash.Algorithm ∧
          (mgf1HashFunc.Parameters.FullBytes = [] ∨
            mgf1HashFunc.Parameters.FullBytes = NullBytes) ∧
          params.TrailerField = 1 := by tauto
      split_ifs with h1 h2 h3
      · refine ⟨iff_of_true rfl ⟨hP, h1.1, h1.2⟩, iff_of_false (by decide) ?_,
          iff_of_false (by decide) ?_⟩ <;>
          · rintro ⟨-, hh, -⟩
            rw [h1.1] at hh
            exact absurd hh (by decide)
      · refine ⟨iff_of_false (by decide) ?_, iff_of_true rfl ⟨hP, h2.1, h2.2⟩,
          iff_of_false (by decide) ?_⟩ <;>
          · rintro ⟨-, hh, -⟩
            rw [h2.1] at hh
            exact absurd hh (by decide)
      · refine ⟨iff_of_false (by decide) ?_, iff_of_false (by decide) ?_,
          iff_of_true rfl ⟨hP, h3.1, h3.2⟩⟩ <;>
          · rintro ⟨-, hh, -⟩
            rw [h3.1] at hh
            exact absurd hh (by decide)
      · exact ⟨iff_of_false (by decide) (fun hR => h1 ⟨hR.2.1, hR.2.2⟩),
          iff_of_false (by decide) (fun hR => h2 ⟨hR.2.1, hR.2.2⟩),
          iff_of_false (by decide) (fun hR => h3 ⟨hR.2.1, hR.2.2⟩)⟩

/-- Witness for C5: the three built-in PSS parameter templates resolve back
to their matching PSS tags. -/
theorem c5_pss_profile_witness :
    getSignatureAlgorithmFromAI
      { Algorithm := oidSignatureRSAPSS, Parameters := pssParametersSHA256 } =
      SHA256WithRSAPSS ∧
    getSignatureAlgorithmFromAI
      { Algorithm := oidSignatureRSAPSS, Parameters := pssParametersSHA384 } =
      SHA384WithRSAPSS ∧
    getSignatureAlgorithmFromAI
      { Algorithm := oidSignatureRSAPSS, Parameters := pssParametersSHA512 } =
      SHA512WithRSAPSS :=
  ⟨(c5_pss_profile { Algorithm := oidSignatureRSAPSS, Parameters := pssParametersSHA256 }
      rfl).2.2.2.2.1,
   (c5_pss_profile { Algorithm := oidSignatureRSAPSS, Parameters := pssParametersSHA384 }
      rfl).2.2.2.2.2.1,
   (c5_pss_profile { Algorithm := oidSignatureRSAPSS, Parameters := pssParametersSHA512 }
      rfl).2.2.2.2.2.2⟩

/-! ## Claim C9 -/

/-- C9, amended: a critical extension in the selected single response rules
out every successful parse, and once the responder-id and certificate
stages have succeeded the result is exactly the `unsupported critical
extension` parse error.  The original claim's "regardless of other field
validity" is too strong: errors raised by the earlier stages (lines
606-685) preempt the critical-extension check at line 687, see the
counterexample. -/
theorem c9_critical_extension_corrected (env : Externals) (der : List Nat)
    (b : basicResponse) (cert issuer : Option Certificate) (s : singleResponse)
    (hsel : selectSingleResp cert b.TBSResponseData.Responses = .ok s)
    (hcrit : s.SingleExtensions.any (fun e => e.Critical) = true) :
    (∀ r, parseBasicResponseForCert env der b cert issuer ≠ .ok r) ∧
    (∀ ret1 ret2,
      resolveResponderID b.TBSResponseData.RawResponderID (initResponse der b s) = .ok ret1 →
      checkCertificates env b issuer ret1 = .ok ret2 →
      parseBasicResponseForCert env der b cert issuer =
        .error (.parseError ("unsupported critical extension"))) := by
  constructor
  · intro r hok
    obtain ⟨s', _, _, _, hsel', _, _, hnone, _, _⟩ :=
      parseBasic_ok_shape env der b cert issuer r hok
    rw [hsel] at hsel'
    injection hsel' with hss
    subst hss
    rw [hcrit] at hnone
    exact absurd hnone (by simp)
  · intro ret1 ret2 hrid hcc
    simp only [parseBasicResponseForCert, hsel, hrid, hcc]
    rw [if_pos hcrit]

/-- Witness for C9 at `testBasicCritical`, a response that reaches the
critical-extension check with every earlier stage succeeding. -/
theorem c9_critical_extension_corrected_witness :
    (∀ r, parseBasicResponseForCert okExternals [] testBasicCritical none none ≠ .ok r) ∧
    (∀ ret1 ret2,
      resolveResponderID testBasicCritical.TBSResponseData.RawResponderID
        (initResponse [] testBasicCritical
          (testBasicCritical.TBSResponseData.Responses.headD {})) = .ok ret1 →
      checkCertificates okExternals testBasicCritical none ret1 = .ok ret2 →
      parseBasicResponseForCert okExternals [] testBasicCritical none none =
        .error (.parseError ("unsupported critical extension"))) :=
  c9_critical_extension_corrected okExternals [] testBasicCritical none none
    (testBasicCritical.TBSResponseData.Responses.headD {}) (by decide) (by decide)

/-! ## Claim C6 -/

/-- C6: the certificate and signature flow of lines 659-685: (i) only the
first element of a non-empty embedded certificate list matters — the whole
parse is unchanged when the tail is dropped; (ii) a verification failure of
the response signature against the embedded certificate is fatal for any
issuer argument, including `none`; (iii) with an issuer supplied, the
embedded certificate's own signature is additionally checked against the
issuer and its failure is fatal; (iv) with no embedded certificate and an
issuer supplied, the response signature is checked directly against the
issuer: its failure is fatal and its success returns the response
unchanged. -/
theorem c6_embedded_certificate_flow (env : Externals) (b : basicResponse)
    (issuer : Option Certificate) (ret : Response) :
    (∀ der cert c0 cs, b.Certificates = c0 :: cs →
      parseBasicResponseForCert env der { b with Certificates := [c0] } cert issuer =
        parseBasicResponseForCert env der b cert issuer) ∧
    (∀ c0 cs cert0 e, b.Certificates = c0 :: cs →
      env.parseCertificate c0.FullBytes = .ok cert0 →
      CheckSignatureFrom env { ret with Certificate := some cert0 } cert0 = .error e →
      checkCertificates env b issuer ret =
        .error (.parseError ("bad signature on embedded certificate: " ++ e))) ∧
    (∀ c0 cs cert0 iss e, issuer = some iss → b.Certificates = c0 :: cs →
      env.parseCertificate c0.FullBytes = .ok cert0 →
      CheckSignatureFrom env { ret with Certificate := some cert0 } cert0 = .ok () →
      env.checkSignature iss cert0.SignatureAlgorithm cert0.RawTBSCertificate
        cert0.Signature = .error e →
      checkCertificates env b issuer ret =
        .error (.parseError ("bad OCSP signature: " ++ e))) ∧
    (∀ iss, issuer = some iss → b.Certificates = [] →
      (∀ e, CheckSignatureFrom env ret iss = .error e →
        checkCertificates env b issuer ret =
          .error (.parseError ("bad OCSP signature: " ++ e))) ∧
      (CheckSignatureFrom env ret iss = .ok () →
        checkCertificates env b issuer ret = .ok ret)) := by
  refine ⟨?_, ?_, ?_, ?_⟩
  · intro der cert c0 cs hcerts
    rcases b with ⟨tbs, alg, sig, certs⟩
    simp only at hcerts
    subst hcerts
    simp [parseBasicResponseForCert, checkCertificates, initResponse]
  · intro c0 cs cert0 e hcerts hpc hsig
    rw [checkCertificates.eq_def]
    simp only [hcerts, hpc, hsig]
  · intro c0 cs cert0 iss e hiss hcerts hpc hsig hsig2
    subst hiss
    rw [checkCertificates.eq_def]
    simp only [hcerts, hpc, hsig, hsig2]
  · intro iss hiss hcerts
    subst hiss
    constructor
    · intro e hsig
      rw [checkCertificates.eq_def]
      simp only [hcerts, hsig]
    · intro hsig
      rw [checkCertificates.eq_def]
      simp only [hcerts, hsig]

/-- Witness for C6: a failing embedded-certificate check with a nil issuer,
a failing direct issuer check with no embedded certificate, and the
first-certificate-only equality, all at concrete inputs. -/
theorem c6_embedded_certificate_flow_witness :
    checkCertificates failSigExternals testBasicWithCert none {} =
      .error (.parseError ("bad signature on embedded certificate: verification error")) ∧
    checkCertificates failSigExternals testBasicGood (some {}) {} =
      .error (.parseError ("bad OCSP signature: verification error")) ∧
    parseBasicResponseForCert okExternals []
        { testBasicWithCert with Certificates := [{ FullBytes := [7, 7] }] } none none =
      parseBasicResponseForCert okExternals [] testBasicWithCert none none := by
  refine ⟨?_, ?_, ?_⟩
  · exact (c6_embedded_certificate_flow failSigExternals testBasicWithCert none {}).2.1
      { FullBytes := [7, 7] } [] {} ("verification error") (by decide) (by decide) (by decide)
  · exact ((c6_embedded_certificate_flow failSigExternals testBasicGood (some {}) {}).2.2.2
      {} rfl (by decide)).1 ("verification error") (by decide)
  · exact (c6_embedded_certificate_flow okExternals testBasicWithCert none {}).1
      [] none { FullBytes := [7, 7] } [] (by decide)

/-- Counterexample to C9 as stated: `testBasicCriticalBadTag` carries a
critical single extension, yet the parse fails with the responder-id error
of line 657, not the `unsupported critical extension` error of line 689,
because the responder-id switch runs first. -/
theorem c9_critical_extension_counterexample :
    ((testBasicCriticalBadTag.TBSResponseData.Responses.headD
      {}).SingleExtensions.any (fun e => e.Critical) = true) ∧
    parseBasicResponseForCert okExternals [] testBasicCriticalBadTag none none =
      .error (.parseError ("invalid responder id tag")) ∧
    ("invalid responder id tag" : String) ≠ ("unsupported critical extension") := by
  refine ⟨by decide, by decide, by decide⟩

end Ocsp
